import Mathlib

/-!
MCPTT on-network floor control (psc-ns3): embedding and verified properties

A shallow embedding of the floor-control code of `src/psc/model`:

* `mcptt-on-network-floor-arbitrator.cc` (the floor arbitrator: `GetIndicator`,
  `IsPreemptive`, `Stop`, `ChangeState`, the stored holder),
* `mcptt-on-network-floor-arbitrator-state.h` (the arbitrator's states and the
  handlers each state overrides),
* `mcptt-on-network-floor-participant.cc` (the floor participant: `GetIndicator`,
  `PttPush`, `Stop`),
* `mcptt-on-network-call-machine-client.cc` and
  `mcptt-on-network-call-machine-client-state.cc` (the client call machine),
* `mcptt-call.cc` and `mcptt-server-app.cc` (the call object and the call-id
  allocator),

and of the SIP element of `src/sip/model/sip-element.cc`.

Conventions. Objects are records and member functions are functions on them.
`uint8_t`, `uint16_t` and `uint32_t` values are natural numbers, reduced modulo
the width where the code does arithmetic on them (the call-id counter, the
backoff of timer A). A function that can reach `NS_FATAL_ERROR`, an abort or a
failed assertion returns an `Option`, `none` being the abort.
-/

namespace Mcptt

/-! ## Message fields -/

/-- The indicator bit patterns named in the sources
(`McpttFloorMsgFieldIndic::NORMAL_CALL` and so on). -/
inductive IndicBit where
  | DUAL_FLOOR
  | NORMAL_CALL
  | BROADCAST_CALL
  | EMERGENCY_CALL
  | IMMINENT_CALL
  deriving DecidableEq, Repr

/-- Modelled from the spec: `McpttFloorMsgFieldIndic` (mcptt-floor-msg-field.h)
is not among the sources. The spec calls it the "call-type indicator set" of a
floor message; it is a set of independent indicator bits, one flag per bit that
the sources test or set. A default-constructed field indicates nothing. -/
structure McpttFloorMsgFieldIndic where
  dualFloor : Bool := false
  normalCall : Bool := false
  broadcastCall : Bool := false
  emergencyCall : Bool := false
  imminentCall : Bool := false
  deriving DecidableEq, Repr

namespace McpttFloorMsgFieldIndic

/-- Sets one bit of the field: `indicator.Indicate (pattern)`. -/
def Indicate (i : McpttFloorMsgFieldIndic) : IndicBit → McpttFloorMsgFieldIndic
  | .DUAL_FLOOR => { i with dualFloor := true }
  | .NORMAL_CALL => { i with normalCall := true }
  | .BROADCAST_CALL => { i with broadcastCall := true }
  | .EMERGENCY_CALL => { i with emergencyCall := true }
  | .IMMINENT_CALL => { i with imminentCall := true }

/-- Tests one bit of the field: `indicator.IsIndicated (pattern)`. -/
def IsIndicated (i : McpttFloorMsgFieldIndic) : IndicBit → Bool
  | .DUAL_FLOOR => i.dualFloor
  | .NORMAL_CALL => i.normalCall
  | .BROADCAST_CALL => i.broadcastCall
  | .EMERGENCY_CALL => i.emergencyCall
  | .IMMINENT_CALL => i.imminentCall

end McpttFloorMsgFieldIndic

/-- The call type carried by `McpttCallMsgFieldCallType::GetType`, a `uint8_t`.
The six named constants are declared in a header that is not among the sources;
they are pairwise distinct, and `other` stands for every remaining byte value. -/
inductive CallTypeId where
  | BASIC_GROUP
  | BROADCAST_GROUP
  | EMERGENCY_GROUP
  | IMMINENT_PERIL_GROUP
  | PRIVATE
  | EMERGENCY_PRIVATE
  | other
  deriving DecidableEq, Repr

/-- The fields of a Floor Request message (`McpttFloorMsgRequest`) that the
arbitrator reads: the sender, `GetPriority ().GetPriority ()` and
`GetIndicator ()`. -/
structure McpttFloorMsgRequest where
  ssrc : Nat
  priority : Nat
  indicator : McpttFloorMsgFieldIndic
  deriving DecidableEq, Repr

/-- The kinds of floor message of the specification's message set. -/
inductive FloorMsgKind where
  | Request
  | Granted
  | Deny
  | Release
  | Idle
  | Taken
  | Revoke
  | QueuePositionRequest
  | QueuePositionInfo
  | Ack
  deriving DecidableEq, Repr

/-- The subtype tag of a floor message (`McpttFloorMsg::GetSubtype`, a
`uint8_t`). The constants `SUBTYPE` and `SUBTYPE_ACK` of the message classes are
declared in a header that is not among the sources; they are pairwise distinct,
the `Ack` suffix marks the ACK-required variant of a subtype, and `other` stands
for every remaining byte value. -/
inductive FloorSubtype where
  | Request
  | Granted
  | GrantedAck
  | Deny
  | DenyAck
  | Release
  | ReleaseAck
  | Idle
  | IdleAck
  | Taken
  | TakenAck
  | Revoke
  | QueuePositionRequest
  | QueuePositionInfo
  | QueuePositionInfoAck
  | Ack
  | other (value : Nat)
  deriving DecidableEq, Repr

/-- A floor message as the base class `McpttFloorMsg` carries it: the subtype
tag, the SSRC of the sender and the remaining fields, which the embedded code
never inspects. -/
structure McpttFloorMsg where
  subtype : FloorSubtype := .Request
  ssrc : Nat := 0
  fields : List Nat := []
  deriving DecidableEq, Repr

/-- The fields of a media message (`McpttMediaMsg`): the SSRC and the rest of
the header and payload, which the embedded code never inspects. -/
structure McpttMediaMsg where
  ssrc : Nat := 0
  content : List Nat := []
  deriving DecidableEq, Repr

/-- Embeds `McpttMediaMsg::SetSsrc`. -/
def McpttMediaMsg.SetSsrc (msg : McpttMediaMsg) (ssrc : Nat) : McpttMediaMsg :=
  { msg with ssrc := ssrc }

/-! ## Timers -/

/-- Modelled from the spec: `McpttTimer` (mcptt-timer.h) is not among the
sources. The spec gives a timer as `{name, delay, running}`: cancellable, and
once stopped it is no longer running. Only the running flag is kept. -/
structure McpttTimer where
  running : Bool := false
  deriving DecidableEq, Repr

namespace McpttTimer

/-- Modelled from the spec: `timer->IsRunning ()`, the running flag. -/
def IsRunning (t : McpttTimer) : Bool := t.running

/-- Modelled from the spec: `timer->Stop ()` cancels the timer, which is then not
running. -/
def Stop (_t : McpttTimer) : McpttTimer := { running := false }

/-- Modelled from the spec: `timer->Start ()` schedules the timer, which is then
running. -/
def Start (_t : McpttTimer) : McpttTimer := { running := true }

end McpttTimer

/-- The guarded stop used throughout the sources:
`if (t->IsRunning ()) { t->Stop (); }`. -/
def stopIfRunning (t : McpttTimer) : McpttTimer :=
  if t.IsRunning then t.Stop else t

/-! ## The floor arbitrator -/

/-- The states of the arbitrator, one per state class declared in
`mcptt-on-network-floor-arbitrator-state.h`. -/
inductive ArbitratorStateId where
  | StartStop
  | Idle
  | Taken
  | Revoke
  | Releasing
  | Initialising
  deriving DecidableEq, Repr

/-- Modelled from the spec: `McpttOnNetworkFloorTowardsParticipant` (the
arbitrator's proxy for one remote participant) is not among the sources. The
spec has the arbitrator map a numeric id to a participant proxy; the proxy keeps
its SSRC and its priority, and the numbers of `Start ()` and `Stop ()` calls it
has received and the messages handed to its `Send`, oldest first, are
recorded. -/
structure TowardsParticipant where
  storedSsrc : Nat
  storedPriority : Nat := 0
  startCalls : Nat := 0
  stopCalls : Nat := 0
  sent : List McpttFloorMsg := []
  deriving DecidableEq, Repr

namespace TowardsParticipant

/-- Modelled from the spec: `Start ()` on the proxy, whose body is not among the
sources; the call is counted. -/
def Start (p : TowardsParticipant) : TowardsParticipant :=
  { p with startCalls := p.startCalls + 1 }

/-- Modelled from the spec: `Stop ()` on the proxy, whose body is not among the
sources; the call is counted. -/
def Stop (p : TowardsParticipant) : TowardsParticipant :=
  { p with stopCalls := p.stopCalls + 1 }

/-- Modelled from the spec: `Send (msg)` on the proxy, whose body is not among
the sources; the message is recorded as delivered to the proxy. -/
def Send (p : TowardsParticipant) (msg : McpttFloorMsg) : TowardsParticipant :=
  { p with sent := p.sent ++ [msg] }

end TowardsParticipant

/-- Modelled from the spec: `McpttFloorQueue` (mcptt-floor-queue.h) is not among
the sources. The spec gives a queue entry as requester id and priority, the
arrival order being the order of equal-priority entries in the queue. -/
structure QueueEntry where
  requesterId : Nat
  priority : Nat
  deriving DecidableEq, Repr

/-- One firing of the `StateChangeTrace` source of the arbitrator: the
transmitting SSRC, the call id, and the ids of the state left and of the state
entered, whose names the trace carries. -/
structure ArbitratorStateChange where
  txSsrc : Nat
  callId : Nat
  fromState : ArbitratorStateId
  toState : ArbitratorStateId
  deriving DecidableEq, Repr

/-- Modelled from the spec: the floor messages that the arbitrator's state
handlers receive and send, as the message sequence of the end-to-end scenario of
the spec names them, each with the SSRC of the participant it is from or to, and
the notification of the holder and the queue on `CallRelease1`. -/
inductive FloorLogEntry where
  | Request (ssrc : Nat)
  | Granted (ssrc : Nat)
  | Deny (ssrc : Nat)
  | QueuePositionInfo (ssrc : Nat)
  | Revoke (ssrc : Nat)
  | Release (ssrc : Nat)
  | Idle
  | CallRelease
  deriving DecidableEq, Repr

/-- The data members of `McpttOnNetworkFloorArbitrator` that the embedded
member functions read or write. `callTypeId` is `GetCallInfo ()->GetCallTypeId ()`,
`callId` is `GetCallInfo ()->GetCallId ()` and `dualControlStarted` is
`GetDualControl ()->IsStarted ()`. `rxCbSet`, `txCbSet` and `stateChangeCbSet`
tell whether `m_rxCb`, `m_txCb` and `m_stateChangeCb` are non-null callbacks;
`txCbCalls`, `stateChangeCbCalls` and `stateChangeTrace` record, oldest first,
the invocations of `m_txCb` and of `m_stateChangeCb` and the firings of the
trace source. `floorLog` is not a data member: it records, oldest first, the
floor messages the state handlers receive and send. -/
structure McpttOnNetworkFloorArbitrator where
  callTypeId : CallTypeId := .BASIC_GROUP
  callId : Nat := 0
  txSsrc : Nat := 0
  rxCbSet : Bool := false
  txCbSet : Bool := false
  txCbCalls : List McpttFloorMsg := []
  stateChangeCbSet : Bool := false
  stateChangeCbCalls : List (ArbitratorStateId × ArbitratorStateId) := []
  stateChangeTrace : List ArbitratorStateChange := []
  dualControlStarted : Bool := false
  participants : List TowardsParticipant := []
  queue : List QueueEntry := []
  state : ArbitratorStateId := .StartStop
  storedSsrc : Nat := 0
  storedPriority : Nat := 0
  t1 : McpttTimer := {}
  t2 : McpttTimer := {}
  t3 : McpttTimer := {}
  t4 : McpttTimer := {}
  t7 : McpttTimer := {}
  t20 : McpttTimer := {}
  floorLog : List FloorLogEntry := []
  deriving DecidableEq, Repr

namespace McpttOnNetworkFloorArbitrator

/-- Embeds `McpttOnNetworkFloorArbitrator::IsDualFloor`. -/
def IsDualFloor (a : McpttOnNetworkFloorArbitrator) : Bool := a.dualControlStarted

/-- Embeds `McpttOnNetworkFloorArbitrator::GetStoredPriority`. -/
def GetStoredPriority (a : McpttOnNetworkFloorArbitrator) : Nat := a.storedPriority

/-- Embeds `McpttOnNetworkFloorArbitrator::GetIndicator`: the dual-floor bit when the
dual control is started, then one call-type bit chosen by the `if`/`else if`
chain over the call type (no bit for a call type outside the chain). -/
def GetIndicator (a : McpttOnNetworkFloorArbitrator) : McpttFloorMsgFieldIndic :=
  let indicator : McpttFloorMsgFieldIndic := {}
  let indicator := if a.IsDualFloor then indicator.Indicate .DUAL_FLOOR else indicator
  if a.callTypeId = .BASIC_GROUP then indicator.Indicate .NORMAL_CALL
  else if a.callTypeId = .BROADCAST_GROUP then indicator.Indicate .BROADCAST_CALL
  else if a.callTypeId = .EMERGENCY_GROUP then indicator.Indicate .EMERGENCY_CALL
  else if a.callTypeId = .IMMINENT_PERIL_GROUP then indicator.Indicate .IMMINENT_CALL
  else if a.callTypeId = .PRIVATE then indicator.Indicate .NORMAL_CALL
  else if a.callTypeId = .EMERGENCY_PRIVATE then indicator.Indicate .EMERGENCY_CALL
  else indicator

/-- Embeds `McpttOnNetworkFloorArbitrator::IsPreemptive`, branch for branch. The local
`preemptive` starts `false` and is returned at the end; the final `else` is
`NS_FATAL_ERROR ("No call type indicated.")`, rendered as `none`. -/
def IsPreemptive (a : McpttOnNetworkFloorArbitrator) (msg : McpttFloorMsgRequest) :
    Option Bool :=
  let preemptive := false
  if msg.indicator.IsIndicated .NORMAL_CALL then
    if a.GetIndicator.IsIndicated .NORMAL_CALL then
      if msg.priority > a.GetStoredPriority then some true else some preemptive
    else if a.GetIndicator.IsIndicated .IMMINENT_CALL
        || a.GetIndicator.IsIndicated .EMERGENCY_CALL then
      some false
    else some preemptive
  else if msg.indicator.IsIndicated .IMMINENT_CALL then
    if a.GetIndicator.IsIndicated .NORMAL_CALL then some true
    else if a.GetIndicator.IsIndicated .IMMINENT_CALL then
      if msg.priority > a.GetStoredPriority then some true else some preemptive
    else if a.GetIndicator.IsIndicated .EMERGENCY_CALL then some false
    else some preemptive
  else if msg.indicator.IsIndicated .EMERGENCY_CALL then
    if a.GetIndicator.IsIndicated .NORMAL_CALL
        || a.GetIndicator.IsIndicated .IMMINENT_CALL then
      some true
    else
      if msg.priority > a.GetStoredPriority then some true else some preemptive
  else none

end McpttOnNetworkFloorArbitrator

/-! ## The preemption rule as the specification words it -/

/-- The call-type classes of the specification. -/
inductive CallClass where
  | Normal
  | Broadcast
  | Imminent
  | Emergency
  deriving DecidableEq, Repr

/-- The precedence of a class as the specification orders them:
Emergency > Imminent > Normal = Broadcast. -/
def CallClass.rank : CallClass → Nat
  | .Emergency => 2
  | .Imminent => 1
  | .Normal => 0
  | .Broadcast => 0

/-- The class an indicator field names: the first indicated bit among Normal,
Imminent, Emergency and Broadcast; a field that indicates none of them names no
class. For a field with a single call-type bit, such as every field built by
`GetIndicator`, it is the class of that bit. -/
def indicClass (i : McpttFloorMsgFieldIndic) : Option CallClass :=
  if i.IsIndicated .NORMAL_CALL then some .Normal
  else if i.IsIndicated .IMMINENT_CALL then some .Imminent
  else if i.IsIndicated .EMERGENCY_CALL then some .Emergency
  else if i.IsIndicated .BROADCAST_CALL then some .Broadcast
  else none

/-- The preemption rule in the specification's words: the request preempts when
its class is strictly higher, or when the classes are equal and its priority is
strictly greater than the stored priority. -/
def specPreempts (reqClass : CallClass) (reqPriority : Nat) (callClass : CallClass)
    (storedPriority : Nat) : Prop :=
  reqClass.rank > callClass.rank ∨
    (reqClass.rank = callClass.rank ∧ reqPriority > storedPriority)

instance (rc : CallClass) (p : Nat) (cc : CallClass) (s : Nat) :
    Decidable (specPreempts rc p cc s) := by
  unfold specPreempts; infer_instance

/-! ## Stopping the arbitrator -/

namespace McpttOnNetworkFloorArbitrator

/-- Embeds `McpttOnNetworkFloorArbitrator::Start`: `Start ()` on every proxy of the
roster, in roster order. -/
def Start (a : McpttOnNetworkFloorArbitrator) : McpttOnNetworkFloorArbitrator :=
  { a with participants := a.participants.map TowardsParticipant.Start }

/-- Embeds `McpttOnNetworkFloorArbitrator::Stop`: `Stop ()` on every proxy of the
roster, in roster order, then each of T1, T2, T3, T4, T7 and T20 is stopped if
it is running. -/
def Stop (a : McpttOnNetworkFloorArbitrator) : McpttOnNetworkFloorArbitrator :=
  let a := { a with participants := a.participants.map TowardsParticipant.Stop }
  let a := { a with t1 := stopIfRunning a.t1 }
  let a := { a with t2 := stopIfRunning a.t2 }
  let a := { a with t3 := stopIfRunning a.t3 }
  let a := { a with t4 := stopIfRunning a.t4 }
  let a := { a with t7 := stopIfRunning a.t7 }
  { a with t20 := stopIfRunning a.t20 }

end McpttOnNetworkFloorArbitrator

/-! ## The arbitrator's state machine -/

namespace McpttOnNetworkFloorArbitrator

/-- Embeds `McpttOnNetworkFloorArbitrator::SetState`. -/
def SetState (a : McpttOnNetworkFloorArbitrator) (state : ArbitratorStateId) :
    McpttOnNetworkFloorArbitrator :=
  { a with state := state }

end McpttOnNetworkFloorArbitrator

namespace McpttOnNetworkFloorArbitrator

end McpttOnNetworkFloorArbitrator

/-- Modelled from the spec: the state classes of the participant
(mcptt-on-network-floor-participant-state.h) are not among the sources, apart
from the Start-stop state that the participant names. The spec lists the states
StartStop, Idle, Pending-Request, Queued, HasPermission and PendingRelease; the
Releasing state is the one entered between the two release phases. -/
inductive ParticipantStateId where
  | StartStop
  | Idle
  | PendingRequest
  | Queued
  | HasPermission
  | PendingRelease
  | Releasing
  deriving DecidableEq, Repr

/-- One firing of the `StateChangeTrace` source of the participant: the user id,
the call id, and the ids of the state left and of the state entered, whose names
the trace carries. -/
structure ParticipantStateChange where
  userId : Nat
  callId : Nat
  fromState : ParticipantStateId
  toState : ParticipantStateId
  deriving DecidableEq, Repr

/-- The data members of `McpttOnNetworkFloorParticipant` that the embedded member
functions read or write. `callTypeId` is what `GetCallTypeId ()` reads from the
call machine of the owning call; `stateChangeCbSet` tells whether
`m_stateChangeCb` is a non-null callback. -/
structure McpttOnNetworkFloorParticipant where
  callTypeId : CallTypeId := .BASIC_GROUP
  dualFloor : Bool := false
  originator : Bool := false
  overridden : Bool := false
  overriding : Bool := false
  priority : Nat := 1
  state : ParticipantStateId := .StartStop
  stateChangeCbSet : Bool := false
  t100 : McpttTimer := {}
  t101 : McpttTimer := {}
  t103 : McpttTimer := {}
  t104 : McpttTimer := {}
  t132 : McpttTimer := {}
  deriving DecidableEq, Repr

/-- The participant together with what it acts on outside itself: the PTT
application of the owning call (its user id, `IsPushed ()`, and the
`Released ()` notifications it has been given), the id of the owning call and
the floor messages handed to `GetOwner ()->Send`, oldest first.
`stateChangeCbCalls` and `stateChangeTrace` record, oldest first, the
invocations of `m_stateChangeCb` and the firings of the trace source. -/
structure FloorWorld where
  machine : McpttOnNetworkFloorParticipant := {}
  userId : Nat := 0
  callId : Nat := 0
  appPushed : Bool := false
  appReleasedCalls : Nat := 0
  sentFloorMsgs : List FloorMsgKind := []
  stateChangeCbCalls : List (ParticipantStateId × ParticipantStateId) := []
  stateChangeTrace : List ParticipantStateChange := []
  deriving DecidableEq, Repr

/-- The handlers of the participant's state classes that the embedded code
dispatches to (`m_state->PttPush (*this)` and so on). Their bodies are in a file
that is not among the sources, so they are a parameter: any function of the
current state and the world. -/
structure ParticipantStateHandlers where
  PttPush : ParticipantStateId → FloorWorld → FloorWorld
  PttRelease : ParticipantStateId → FloorWorld → FloorWorld
  CallInitialized : ParticipantStateId → FloorWorld → FloorWorld
  CallRelease1 : ParticipantStateId → FloorWorld → FloorWorld
  CallRelease2 : ParticipantStateId → FloorWorld → FloorWorld

namespace McpttOnNetworkFloorParticipant

/-- Embeds `McpttOnNetworkFloorParticipant::IsDualFloor`. -/
def IsDualFloor (p : McpttOnNetworkFloorParticipant) : Bool := p.dualFloor

/-- Embeds `McpttOnNetworkFloorParticipant::GetCallTypeId`. -/
def GetCallTypeId (p : McpttOnNetworkFloorParticipant) : CallTypeId := p.callTypeId

/-- Embeds `McpttOnNetworkFloorParticipant::GetIndicator`: the same chain as the
arbitrator's, over the participant's own dual-floor flag and call type. -/
def GetIndicator (p : McpttOnNetworkFloorParticipant) : McpttFloorMsgFieldIndic :=
  let indicator : McpttFloorMsgFieldIndic := {}
  let callTypeId := p.GetCallTypeId
  let indicator := if p.IsDualFloor then indicator.Indicate .DUAL_FLOOR else indicator
  if callTypeId = .BASIC_GROUP then indicator.Indicate .NORMAL_CALL
  else if callTypeId = .BROADCAST_GROUP then indicator.Indicate .BROADCAST_CALL
  else if callTypeId = .EMERGENCY_GROUP then indicator.Indicate .EMERGENCY_CALL
  else if callTypeId = .IMMINENT_PERIL_GROUP then indicator.Indicate .IMMINENT_CALL
  else if callTypeId = .PRIVATE then indicator.Indicate .NORMAL_CALL
  else if callTypeId = .EMERGENCY_PRIVATE then indicator.Indicate .EMERGENCY_CALL
  else indicator

/-- Embeds `McpttOnNetworkFloorParticipant::Stop`: each of T100, T101, T103, T104 and
T132 is stopped if it is running. -/
def Stop (p : McpttOnNetworkFloorParticipant) : McpttOnNetworkFloorParticipant :=
  let p := { p with t100 := stopIfRunning p.t100 }
  let p := { p with t101 := stopIfRunning p.t101 }
  let p := { p with t103 := stopIfRunning p.t103 }
  let p := { p with t104 := stopIfRunning p.t104 }
  { p with t132 := stopIfRunning p.t132 }

end McpttOnNetworkFloorParticipant

namespace FloorWorld

/-- Modelled from the spec: `pttApp->Released ()`. The PTT application is not
among the sources (the spec has it as the local application, an external
collaborator); the notification is counted, and nothing is said of what the
application does with it. -/
def appReleased (w : FloorWorld) : FloorWorld :=
  { w with appReleasedCalls := w.appReleasedCalls + 1 }

/-- Embeds `McpttOnNetworkFloorParticipant::Send`: the message goes to the owning call. -/
def Send (w : FloorWorld) (msg : FloorMsgKind) : FloorWorld :=
  { w with sentFloorMsgs := w.sentFloorMsgs ++ [msg] }

/-- Embeds `McpttOnNetworkFloorParticipant::PttPush`: on a BROADCAST_GROUP call the push
is denied locally (the application is told `Released ()` if it is pushed);
otherwise it goes to the current state's handler. -/
def PttPush (h : ParticipantStateHandlers) (w : FloorWorld) : FloorWorld :=
  let callTypeId := w.machine.GetCallTypeId
  if callTypeId = .BROADCAST_GROUP then
    if w.appPushed then w.appReleased else w
  else
    h.PttPush w.machine.state w

/-- Embeds `McpttOnNetworkFloorParticipant::PttRelease`. -/
def PttRelease (h : ParticipantStateHandlers) (w : FloorWorld) : FloorWorld :=
  h.PttRelease w.machine.state w

/-- Embeds `McpttOnNetworkFloorParticipant::CallInitialized`. -/
def CallInitialized (h : ParticipantStateHandlers) (w : FloorWorld) : FloorWorld :=
  h.CallInitialized w.machine.state w

/-- Embeds `McpttOnNetworkFloorParticipant::CallRelease1`. -/
def CallRelease1 (h : ParticipantStateHandlers) (w : FloorWorld) : FloorWorld :=
  h.CallRelease1 w.machine.state w

/-- Embeds `McpttOnNetworkFloorParticipant::CallRelease2`. -/
def CallRelease2 (h : ParticipantStateHandlers) (w : FloorWorld) : FloorWorld :=
  h.CallRelease2 w.machine.state w

/-- Embeds `McpttOnNetworkFloorParticipant::Start`. -/
def Start (h : ParticipantStateHandlers) (w : FloorWorld) : FloorWorld :=
  w.CallInitialized h

/-- Embeds `McpttOnNetworkFloorParticipant::Stop`, on the participant of the world. -/
def Stop (w : FloorWorld) : FloorWorld :=
  { w with machine := w.machine.Stop }

end FloorWorld

/-! ## The client call machine -/

/-- The states of the client call machine, one per state class of
`mcptt-on-network-call-machine-client-state.cc`: S1 start-stop, S2 initiating,
S3 part of ongoing call, S4 releasing. -/
inductive ClientStateId where
  | S1
  | S2
  | S3
  | S4
  deriving DecidableEq, Repr

/-- The message type of a SIP header (`SipHeader::GetMessageType`); `other` is
any value that is neither a request nor a response. -/
inductive SipMessageType where
  | SIP_REQUEST
  | SIP_RESPONSE
  | other
  deriving DecidableEq, Repr

/-- The method of a SIP request (`SipHeader::GetMethod`); `other` is any method
that is none of INVITE, BYE and ACK. -/
inductive SipMethod where
  | INVITE
  | BYE
  | ACK
  | other
  deriving DecidableEq, Repr

/-- The fields of `SipHeader` that the call machine sets or reads. -/
structure SipHeader where
  messageType : SipMessageType := .other
  method : SipMethod := .other
  statusCode : Nat := 0
  requestUri : Nat := 0
  sipFrom : Nat := 0
  sipTo : Nat := 0
  callId : Nat := 0
  deriving DecidableEq, Repr

/-- The fields of `McpttSdpFmtpHeader`. -/
structure McpttSdpFmtpHeader where
  mcGranted : Bool := false
  mcPriority : Nat := 0
  mcQueueing : Bool := false
  mcImplicitRequest : Bool := false
  deriving DecidableEq, Repr

/-- A call-control packet: its SIP header and the SDP header under it. -/
structure CallPacket where
  sip : SipHeader := {}
  sdp : McpttSdpFmtpHeader := {}
  deriving DecidableEq, Repr

/-- The operations the call machine invokes on the floor machine of its call. -/
inductive FloorCall where
  | Start
  | Stop
  | CallInitiated
  | CallEstablished (granted : Bool) (priority : Nat)
  | CallRelease1
  | CallRelease2
  deriving DecidableEq, Repr

/-- The notifications the call machine gives the PTT application. -/
inductive AppNote where
  | SessionInitiateRequest
  | SessionReleaseRequest
  | ScheduleReleaseCall
  deriving DecidableEq, Repr

/-- The data members of `McpttOnNetworkCallMachineClient`. `stateChangeCbSet`
tells whether `m_stateChangeCb` is a non-null callback. -/
structure McpttOnNetworkCallMachineClient where
  state : ClientStateId := .S1
  started : Bool := false
  callId : Nat := 0
  callType : CallTypeId := .BASIC_GROUP
  grpId : Nat := 0
  stateChangeCbSet : Bool := false
  deriving DecidableEq, Repr

/-- One report of a state change by the client call machine: an invocation of the
state-change callback or a firing of the trace source, with the ids of the state
left and of the state entered. -/
inductive ClientStateReport where
  | callback (fromState toState : ClientStateId)
  | trace (fromState toState : ClientStateId)
  deriving DecidableEq, Repr

/-- The call machine together with what it acts on: the owning call (its id, its
floor and media channels, its floor machine, its stop time), the PTT application
(user id, notifications, call-control packets sent) and the simulator clock.
`floorCalls` records, oldest first, the operations invoked on the floor machine;
`stateChangeCbCalls` and `stateChangeTrace` record the firings of the callback
and of the trace source, and `stateReports` records both in the order in which
they happen. -/
structure ClientWorld where
  machine : McpttOnNetworkCallMachineClient := {}
  userId : Nat := 0
  ownerCallId : Nat := 0
  stopTime : Nat := 0
  now : Nat := 0
  floorChanOpen : Bool := false
  mediaChanOpen : Bool := false
  floor : FloorWorld := {}
  floorCalls : List FloorCall := []
  sentCallControl : List CallPacket := []
  appNotes : List AppNote := []
  stateChangeCbCalls : List (ClientStateId × ClientStateId) := []
  stateChangeTrace : List (ClientStateId × ClientStateId) := []
  stateReports : List ClientStateReport := []
  deriving DecidableEq, Repr

/-- What the call machine calls on the floor machine and is not in the sources:
the handlers of the participant's state classes, and the member functions
`CallInitiated`, `CallEstablished` and `IsImplicitRequest`, which the client
states call and the participant source at hand does not define. All are
parameters. -/
structure FloorMachineOps where
  states : ParticipantStateHandlers
  CallInitiated : FloorWorld → FloorWorld
  CallEstablished : Bool → Nat → FloorWorld → FloorWorld
  IsImplicitRequest : FloorWorld → Bool

namespace ClientWorld

/-- Embeds `floorMachine->CallInitiated ()`. -/
def floorCallInitiated (ops : FloorMachineOps) (w : ClientWorld) : ClientWorld :=
  { w with floor := ops.CallInitiated w.floor
           floorCalls := w.floorCalls ++ [.CallInitiated] }

/-- Embeds `floorMachine->CallEstablished (granted, priority)`. -/
def floorCallEstablished (ops : FloorMachineOps) (granted : Bool) (priority : Nat)
    (w : ClientWorld) : ClientWorld :=
  { w with floor := ops.CallEstablished granted priority w.floor
           floorCalls := w.floorCalls ++ [.CallEstablished granted priority] }

/-- Embeds `floorMachine->CallRelease1 ()`. -/
def floorCallRelease1 (ops : FloorMachineOps) (w : ClientWorld) : ClientWorld :=
  { w with floor := w.floor.CallRelease1 ops.states
           floorCalls := w.floorCalls ++ [.CallRelease1] }

/-- Embeds `floorMachine->CallRelease2 ()`. -/
def floorCallRelease2 (ops : FloorMachineOps) (w : ClientWorld) : ClientWorld :=
  { w with floor := w.floor.CallRelease2 ops.states
           floorCalls := w.floorCalls ++ [.CallRelease2] }

/-- Embeds `floorMachine->Start ()`. -/
def floorStart (ops : FloorMachineOps) (w : ClientWorld) : ClientWorld :=
  { w with floor := w.floor.Start ops.states
           floorCalls := w.floorCalls ++ [.Start] }

/-- Embeds `floorMachine->Stop ()`. -/
def floorStop (w : ClientWorld) : ClientWorld :=
  { w with floor := w.floor.Stop
           floorCalls := w.floorCalls ++ [.Stop] }

/-- Embeds `McpttOnNetworkCallMachineClient::SendCallControlPacket`. -/
def SendCallControlPacket (w : ClientWorld) (pkt : CallPacket) : ClientWorld :=
  { w with sentCallControl := w.sentCallControl ++ [pkt] }

/-- A notification to the PTT application. -/
def notifyApp (w : ClientWorld) (n : AppNote) : ClientWorld :=
  { w with appNotes := w.appNotes ++ [n] }

/-- Embeds `McpttOnNetworkCallMachineClient::SetState`: only a started machine moves,
and only to a state with another id; the callback fires if it is set, the trace
source always. -/
def SetState (w : ClientWorld) (state : ClientStateId) : ClientWorld :=
  let stateId := state
  let currStateId := w.machine.state
  if w.machine.started && (stateId != currStateId) then
    let w := { w with machine := { w.machine with state := state } }
    let w := if w.machine.stateChangeCbSet then
        { w with stateChangeCbCalls := w.stateChangeCbCalls ++ [(currStateId, stateId)]
                 stateReports := w.stateReports ++ [.callback currStateId stateId] }
      else w
    { w with stateChangeTrace := w.stateChangeTrace ++ [(currStateId, stateId)]
             stateReports := w.stateReports ++ [.trace currStateId stateId] }
  else w

/-- The 200 response the client states build. -/
def response200 (w : ClientWorld) : CallPacket :=
  { sip := { messageType := .SIP_RESPONSE, statusCode := 200, sipFrom := w.userId,
             sipTo := w.machine.grpId, callId := w.ownerCallId } }

/-- Embeds `McpttOnNetworkCallMachineClientStateS1::InitiateCall`. -/
def S1_InitiateCall (ops : FloorMachineOps) (w : ClientWorld) : ClientWorld :=
  let w := w.floorCallInitiated ops
  let fmtpHeader : McpttSdpFmtpHeader :=
    { mcGranted := true, mcPriority := w.floor.machine.priority, mcQueueing := true,
      mcImplicitRequest := ops.IsImplicitRequest w.floor }
  let sipHeader : SipHeader :=
    { messageType := .SIP_REQUEST, method := .INVITE, requestUri := w.machine.grpId,
      sipFrom := w.userId, sipTo := w.machine.grpId, callId := w.ownerCallId }
  let w := w.SendCallControlPacket { sip := sipHeader, sdp := fmtpHeader }
  w.SetState .S2

/-- Embeds `McpttOnNetworkCallMachineClientStateS1::ReceiveInvite`. -/
def S1_ReceiveInvite (ops : FloorMachineOps) (w : ClientWorld) (pkt : CallPacket) :
    ClientWorld :=
  let sdpHeader := pkt.sdp
  let w := w.floorCallEstablished ops sdpHeader.mcGranted sdpHeader.mcPriority
  let w := w.notifyApp .SessionInitiateRequest
  let w := w.SendCallControlPacket w.response200
  w.SetState .S3

/-- Embeds `McpttOnNetworkCallMachineClientStateS2::ReceiveInvite` (setup collision). -/
def S2_ReceiveInvite (ops : FloorMachineOps) (w : ClientWorld) (pkt : CallPacket) :
    ClientWorld :=
  let sdpHeader := pkt.sdp
  let w := w.floorCallEstablished ops sdpHeader.mcGranted sdpHeader.mcPriority
  let w := w.notifyApp .SessionInitiateRequest
  let w := w.SendCallControlPacket w.response200
  w.SetState .S3

/-- Embeds `McpttOnNetworkCallMachineClientStateS2::ReceiveResponse`; `none` is the
abort of `NS_ABORT_MSG_UNLESS` on a stop time in the past. -/
def S2_ReceiveResponse (ops : FloorMachineOps) (w : ClientWorld) (pkt : CallPacket) :
    Option ClientWorld :=
  let sdpHeader := pkt.sdp
  let w := w.floorCallEstablished ops sdpHeader.mcGranted sdpHeader.mcPriority
  if w.stopTime ≥ w.now then
    let w := w.notifyApp .ScheduleReleaseCall
    some (w.SetState .S3)
  else none

/-- Embeds `McpttOnNetworkCallMachineClientStateS2::ReceiveBye`. -/
def S2_ReceiveBye (w : ClientWorld) : ClientWorld :=
  w.SetState .S1

/-- Embeds `McpttOnNetworkCallMachineClientStateS2::ReleaseCall`. -/
def S2_ReleaseCall (w : ClientWorld) : ClientWorld :=
  w.SetState .S4

/-- Embeds `McpttOnNetworkCallMachineClientStateS3::ReceiveBye`. -/
def S3_ReceiveBye (ops : FloorMachineOps) (w : ClientWorld) : ClientWorld :=
  let w := w.floorCallRelease1 ops
  let w := w.floorCallRelease2 ops
  let w := w.notifyApp .SessionReleaseRequest
  let w := w.SendCallControlPacket w.response200
  w.SetState .S1

/-- Embeds `McpttOnNetworkCallMachineClientStateS3::ReleaseCall`. -/
def S3_ReleaseCall (ops : FloorMachineOps) (w : ClientWorld) : ClientWorld :=
  let w := w.floorCallRelease1 ops
  let sipHeader : SipHeader :=
    { messageType := .SIP_REQUEST, method := .BYE, requestUri := w.machine.grpId,
      sipFrom := w.userId, sipTo := w.machine.grpId, callId := w.ownerCallId }
  let w := w.SendCallControlPacket { sip := sipHeader }
  w.SetState .S4

/-- Embeds `McpttOnNetworkCallMachineClientStateS4::ReceiveBye` (colliding BYEs). -/
def S4_ReceiveBye (w : ClientWorld) : ClientWorld :=
  w.SetState .S1

/-- Embeds `McpttOnNetworkCallMachineClientStateS4::ReceiveResponse`. -/
def S4_ReceiveResponse (ops : FloorMachineOps) (w : ClientWorld) : ClientWorld :=
  let w := w.floorCallRelease2 ops
  w.SetState .S1

/-- Embeds `m_state->ReceiveInvite (*this, from, pkt)`: the override of the current
state class, or the base class, which ignores the INVITE. -/
def stateReceiveInvite (ops : FloorMachineOps) (w : ClientWorld) (pkt : CallPacket) :
    Option ClientWorld :=
  match w.machine.state with
  | .S1 => some (w.S1_ReceiveInvite ops pkt)
  | .S2 => some (w.S2_ReceiveInvite ops pkt)
  | .S3 => some w
  | .S4 => some w

/-- Embeds `m_state->ReceiveBye (*this, from, pkt)`: the override of the current state
class, or the base class, which ignores the BYE. -/
def stateReceiveBye (ops : FloorMachineOps) (w : ClientWorld) : Option ClientWorld :=
  match w.machine.state with
  | .S1 => some w
  | .S2 => some w.S2_ReceiveBye
  | .S3 => some (w.S3_ReceiveBye ops)
  | .S4 => some w.S4_ReceiveBye

/-- Embeds `m_state->ReceiveResponse (*this, from, pkt)`: the override of the current
state class (S3 overrides it to ignore the response), or the base class, which
ignores it. -/
def stateReceiveResponse (ops : FloorMachineOps) (w : ClientWorld) (pkt : CallPacket) :
    Option ClientWorld :=
  match w.machine.state with
  | .S1 => some w
  | .S2 => w.S2_ReceiveResponse ops pkt
  | .S3 => some w
  | .S4 => some (w.S4_ReceiveResponse ops)

/-- Embeds `m_state->InitiateCall (*this)`. -/
def stateInitiateCall (ops : FloorMachineOps) (w : ClientWorld) : Option ClientWorld :=
  match w.machine.state with
  | .S1 => some (w.S1_InitiateCall ops)
  | .S2 => some w
  | .S3 => some w
  | .S4 => some w

/-- Embeds `m_state->ReleaseCall (*this)`. -/
def stateReleaseCall (ops : FloorMachineOps) (w : ClientWorld) : Option ClientWorld :=
  match w.machine.state with
  | .S1 => some w
  | .S2 => some w.S2_ReleaseCall
  | .S3 => some (w.S3_ReleaseCall ops)
  | .S4 => some w

/-- Embeds `McpttOnNetworkCallMachineClient::InitiateCall`: forwarded to the state only
in S1. -/
def InitiateCall (ops : FloorMachineOps) (w : ClientWorld) : Option ClientWorld :=
  if w.machine.state = .S1 then w.stateInitiateCall ops else some w

/-- Embeds `McpttOnNetworkCallMachineClient::ReleaseCall`. -/
def ReleaseCall (ops : FloorMachineOps) (w : ClientWorld) : Option ClientWorld :=
  w.stateReleaseCall ops

/-- Embeds `McpttOnNetworkCallMachineClient::ReceiveCallPacket`: the call id of the
packet must be the machine's (`NS_ASSERT_MSG`, `none` when it fails); then the
dispatch on message type and method. -/
def ReceiveCallPacket (ops : FloorMachineOps) (w : ClientWorld) (pkt : CallPacket) :
    Option ClientWorld :=
  let sipHeader := pkt.sip
  if sipHeader.callId = w.machine.callId then
    if sipHeader.messageType = .SIP_REQUEST then
      if sipHeader.method = .INVITE then w.stateReceiveInvite ops pkt
      else if sipHeader.method = .BYE then w.stateReceiveBye ops
      else some w
    else if sipHeader.messageType = .SIP_RESPONSE then w.stateReceiveResponse ops pkt
    else some w
  else none

/-- Embeds `McpttOnNetworkCallMachineClient::Start`. -/
def Start (ops : FloorMachineOps) (w : ClientWorld) : ClientWorld :=
  let w := { w with floorChanOpen := true }
  let w := { w with mediaChanOpen := true }
  let w := w.floorStart ops
  { w with machine := { w.machine with started := true } }

/-- Embeds `McpttOnNetworkCallMachineClient::Stop`. -/
def Stop (w : ClientWorld) : ClientWorld :=
  let w := { w with floorChanOpen := false }
  let w := { w with mediaChanOpen := false }
  let w := w.floorStop
  let w := { w with machine := { w.machine with started := false } }
  w.SetState .S1

end ClientWorld

/-- The events that drive the client call machine. -/
inductive ClientEvent where
  | InitiateCall
  | ReleaseCall
  | ReceiveCallPacket (pkt : CallPacket)
  deriving DecidableEq, Repr

/-- One event on the call machine; `none` when the code aborts. -/
def clientStep (ops : FloorMachineOps) (w : ClientWorld) : ClientEvent → Option ClientWorld
  | .InitiateCall => w.InitiateCall ops
  | .ReleaseCall => w.ReleaseCall ops
  | .ReceiveCallPacket pkt => w.ReceiveCallPacket ops pkt

/-- A sequence of events on the call machine, oldest first. -/
def clientRun (ops : FloorMachineOps) (w : ClientWorld) : List ClientEvent → Option ClientWorld
  | [] => some w
  | e :: es => (clientStep ops w e).bind fun w1 => clientRun ops w1 es

/-- A handler set whose `PttPush` sends a Floor Request and moves the participant
to the Pending-Request state; the other handlers do nothing. Used to instantiate
the theorems at a concrete handler. -/
def requestingHandlers : ParticipantStateHandlers where
  PttPush := fun _ w =>
    { w.Send .Request with machine := { w.machine with state := .PendingRequest } }
  PttRelease := fun _ w => w
  CallInitialized := fun _ w => w
  CallRelease1 := fun _ w => w
  CallRelease2 := fun _ w => w

/-- A BYE request for the call with the given id. -/
def byePacket (callId : Nat) : CallPacket :=
  { sip := { messageType := .SIP_REQUEST, method := .BYE, callId := callId } }

/-- A response for the call with the given id. -/
def responsePacket (callId : Nat) : CallPacket :=
  { sip := { messageType := .SIP_RESPONSE, statusCode := 200, callId := callId } }

/-- A started call machine in state S3 on call 1, nothing yet invoked on its
floor machine. -/
def ongoingCall : ClientWorld :=
  { machine := { state := .S3, started := true, callId := 1 }, ownerCallId := 1 }

/-- A smart pointer `Ptr<T>`: the null pointer or an object. -/
inductive Ptr (α : Type) where
  | null
  | obj (a : α)
  deriving DecidableEq, Repr

namespace McpttOnNetworkFloorArbitrator

/-- The `while` loop of `GetParticipant`: the roster is walked until a proxy
whose stored SSRC is the one looked for has been found; the pointer stays null
when the end is reached first. -/
def getParticipantLoop (ssrc : Nat) : List TowardsParticipant → Ptr TowardsParticipant
  | [] => .null
  | p :: rest => if p.storedSsrc = ssrc then .obj p else getParticipantLoop ssrc rest

/-- Embeds `McpttOnNetworkFloorArbitrator::GetParticipant`. -/
def GetParticipant (a : McpttOnNetworkFloorArbitrator) (ssrc : Nat) :
    Ptr TowardsParticipant :=
  getParticipantLoop ssrc a.participants

/-- The invocation of `m_txCb` behind `if (!m_txCb.IsNull ())`: the messages it
adds to the record of tx-callback invocations. -/
def txCbOnce (txCbSet : Bool) (msg : McpttFloorMsg) : List McpttFloorMsg :=
  if txCbSet then [msg] else []

/-- The `while` loop of `SendTo`: the roster is walked until a proxy whose stored
SSRC is the one addressed has been found; that proxy is sent the message and the
tx callback is invoked. The result is the roster afterwards and the tx-callback
invocations made. -/
def sendToLoop (txCbSet : Bool) (msg : McpttFloorMsg) (ssrc : Nat) :
    List TowardsParticipant → List TowardsParticipant × List McpttFloorMsg
  | [] => ([], [])
  | p :: rest =>
    if p.storedSsrc = ssrc then (p.Send msg :: rest, txCbOnce txCbSet msg)
    else ((p :: (sendToLoop txCbSet msg ssrc rest).1), (sendToLoop txCbSet msg ssrc rest).2)

/-- Embeds `McpttOnNetworkFloorArbitrator::SendTo`. -/
def SendTo (a : McpttOnNetworkFloorArbitrator) (msg : McpttFloorMsg) (ssrc : Nat) :
    McpttOnNetworkFloorArbitrator :=
  { a with participants := (sendToLoop a.txCbSet msg ssrc a.participants).1
           txCbCalls := a.txCbCalls ++ (sendToLoop a.txCbSet msg ssrc a.participants).2 }

/-- The `while` loop of `SendToAll`: every proxy is sent the message, each
delivery followed by the tx callback. -/
def sendToAllLoop (txCbSet : Bool) (msg : McpttFloorMsg) :
    List TowardsParticipant → List TowardsParticipant × List McpttFloorMsg
  | [] => ([], [])
  | p :: rest =>
    ((p.Send msg :: (sendToAllLoop txCbSet msg rest).1),
      txCbOnce txCbSet msg ++ (sendToAllLoop txCbSet msg rest).2)

/-- Embeds `McpttOnNetworkFloorArbitrator::SendToAll`. -/
def SendToAll (a : McpttOnNetworkFloorArbitrator) (msg : McpttFloorMsg) :
    McpttOnNetworkFloorArbitrator :=
  { a with participants := (sendToAllLoop a.txCbSet msg a.participants).1
           txCbCalls := a.txCbCalls ++ (sendToAllLoop a.txCbSet msg a.participants).2 }

/-- The `while` loop of `SendToAllExcept`: every proxy whose stored SSRC is not
the excepted one is sent the message, each delivery followed by the tx
callback. -/
def sendToAllExceptLoop (txCbSet : Bool) (msg : McpttFloorMsg) (ssrc : Nat) :
    List TowardsParticipant → List TowardsParticipant × List McpttFloorMsg
  | [] => ([], [])
  | p :: rest =>
    if p.storedSsrc ≠ ssrc then
      ((p.Send msg :: (sendToAllExceptLoop txCbSet msg ssrc rest).1),
        txCbOnce txCbSet msg ++ (sendToAllExceptLoop txCbSet msg ssrc rest).2)
    else
      ((p :: (sendToAllExceptLoop txCbSet msg ssrc rest).1),
        (sendToAllExceptLoop txCbSet msg ssrc rest).2)

/-- Embeds `McpttOnNetworkFloorArbitrator::SendToAllExcept`. -/
def SendToAllExcept (a : McpttOnNetworkFloorArbitrator) (msg : McpttFloorMsg)
    (ssrc : Nat) : McpttOnNetworkFloorArbitrator :=
  { a with participants := (sendToAllExceptLoop a.txCbSet msg ssrc a.participants).1
           txCbCalls :=
             a.txCbCalls ++ (sendToAllExceptLoop a.txCbSet msg ssrc a.participants).2 }

/-- Embeds `McpttOnNetworkFloorArbitrator::SetRxCb`; the argument tells whether the
callback given is non-null. -/
def SetRxCb (a : McpttOnNetworkFloorArbitrator) (rxCb : Bool) :
    McpttOnNetworkFloorArbitrator :=
  { a with rxCbSet := rxCb }

/-- Embeds `McpttOnNetworkFloorArbitrator::SetTxCb`; the argument tells whether the
callback given is non-null. -/
def SetTxCb (a : McpttOnNetworkFloorArbitrator) (txCb : Bool) :
    McpttOnNetworkFloorArbitrator :=
  { a with txCbSet := txCb }

/-- Embeds `McpttOnNetworkFloorArbitrator::SetStateChangeCb`; the argument tells
whether the callback given is non-null. -/
def SetStateChangeCb (a : McpttOnNetworkFloorArbitrator) (stateChangeCb : Bool) :
    McpttOnNetworkFloorArbitrator :=
  { a with stateChangeCbSet := stateChangeCb }

/-- Embeds `McpttOnNetworkFloorArbitrator::GetStateId`. -/
def GetStateId (a : McpttOnNetworkFloorArbitrator) : ArbitratorStateId := a.state

end McpttOnNetworkFloorArbitrator

/-! ## Changing state -/

/-- The `Unselected` and `Selected` handlers of the arbitrator's state classes.
Their bodies are in a file that is not among the sources, so they are a
parameter: any function of the state and the arbitrator. -/
structure ArbitratorStateHooks where
  Unselected : ArbitratorStateId → McpttOnNetworkFloorArbitrator →
    McpttOnNetworkFloorArbitrator
  Selected : ArbitratorStateId → McpttOnNetworkFloorArbitrator →
    McpttOnNetworkFloorArbitrator

/-- Embeds `McpttOnNetworkFloorArbitrator::ChangeState`: when the id of the new state
differs from the current one, `Unselected` on the current state, `SetState`,
`Selected` on the new state, then the trace source fires with the names of the
two states; otherwise nothing. -/
def McpttOnNetworkFloorArbitrator.ChangeState (hooks : ArbitratorStateHooks)
    (a : McpttOnNetworkFloorArbitrator) (state : ArbitratorStateId) :
    McpttOnNetworkFloorArbitrator :=
  let stateId := state
  let currStateId := a.GetStateId
  if currStateId ≠ stateId then
    let a := hooks.Unselected a.state a
    let a := a.SetState state
    let a := hooks.Selected state a
    { a with stateChangeTrace := a.stateChangeTrace ++
        [{ txSsrc := a.txSsrc, callId := a.callId,
           fromState := currStateId, toState := stateId }] }
  else a

/-- The handlers of the participant's state classes that `ChangeState` and
`MediaReady` dispatch to. Their bodies are in a file that is not among the
sources, so they are a parameter; `MediaReady` is given the message by
reference and returns it as it leaves it. -/
structure ParticipantStateHooks where
  Unselected : ParticipantStateId → FloorWorld → FloorWorld
  Selected : ParticipantStateId → FloorWorld → FloorWorld
  MediaReady : ParticipantStateId → FloorWorld → McpttMediaMsg → FloorWorld × McpttMediaMsg

namespace FloorWorld

/-- Embeds `McpttOnNetworkFloorParticipant::SetState`. -/
def SetState (w : FloorWorld) (state : ParticipantStateId) : FloorWorld :=
  { w with machine := { w.machine with state := state } }

/-- Embeds `McpttOnNetworkFloorParticipant::GetStateId`. -/
def GetStateId (w : FloorWorld) : ParticipantStateId := w.machine.state

/-- Embeds `McpttOnNetworkFloorParticipant::SetStateChangeCb`; the argument tells
whether the callback given is non-null. -/
def SetStateChangeCb (w : FloorWorld) (stateChangeCb : Bool) : FloorWorld :=
  { w with machine := { w.machine with stateChangeCbSet := stateChangeCb } }

/-- Embeds `McpttOnNetworkFloorParticipant::ChangeState`: when the id of the new
state differs from the current one, `Unselected` on the current state,
`SetState`, `Selected` on the new state, then the trace source fires with the
names of the two states; otherwise nothing (a log line). -/
def ChangeState (hooks : ParticipantStateHooks) (w : FloorWorld)
    (state : ParticipantStateId) : FloorWorld :=
  let stateId := state
  let currStateId := w.GetStateId
  if currStateId ≠ stateId then
    let w := hooks.Unselected w.machine.state w
    let w := w.SetState state
    let w := hooks.Selected state w
    { w with stateChangeTrace := w.stateChangeTrace ++
        [{ userId := w.userId, callId := w.callId,
           fromState := currStateId, toState := stateId }] }
  else w

/-- Embeds `McpttOnNetworkFloorParticipant::GetTxSsrc`: the user id of the owning
application. -/
def GetTxSsrc (w : FloorWorld) : Nat := w.userId

/-- Embeds `McpttOnNetworkFloorParticipant::MediaReady`: the message is stamped with
`GetTxSsrc ()` and handed to the current state. The result is the world and the
message as the call leaves it. -/
def MediaReady (hooks : ParticipantStateHooks) (w : FloorWorld) (msg : McpttMediaMsg) :
    FloorWorld × McpttMediaMsg :=
  let msg := msg.SetSsrc w.GetTxSsrc
  hooks.MediaReady w.machine.state w msg

end FloorWorld

/-- Hooks that do nothing: the states are left and entered without side effect
and the media message is passed through. -/
def quietArbitratorHooks : ArbitratorStateHooks where
  Unselected := fun _ a => a
  Selected := fun _ a => a

/-- Hooks that do nothing: the states are left and entered without side effect
and the media message is passed through. -/
def quietParticipantHooks : ParticipantStateHooks where
  Unselected := fun _ w => w
  Selected := fun _ w => w
  MediaReady := fun _ w msg => (w, msg)

/-! ## The client call object -/

/-- The message classes `McpttCall::ReceiveFloorPkt` deserialises into, as kinds:
the class whose `SUBTYPE` (or `SUBTYPE_ACK`) constant a subtype is; no class for
any other value. -/
def FloorSubtype.kind : FloorSubtype → Option FloorMsgKind
  | .Request => some .Request
  | .Granted => some .Granted
  | .GrantedAck => some .Granted
  | .Deny => some .Deny
  | .DenyAck => some .Deny
  | .Release => some .Release
  | .ReleaseAck => some .Release
  | .Idle => some .Idle
  | .IdleAck => some .Idle
  | .Taken => some .Taken
  | .TakenAck => some .Taken
  | .Revoke => some .Revoke
  | .QueuePositionRequest => some .QueuePositionRequest
  | .QueuePositionInfo => some .QueuePositionInfo
  | .QueuePositionInfoAck => some .QueuePositionInfo
  | .Ack => some .Ack
  | .other _ => none

/-- A packet received on the floor channel: the header on top, which
`PeekHeader` reads and `RemoveHeader` takes off, and what is under it. -/
structure FloorPacket where
  top : McpttFloorMsg
  rest : List McpttFloorMsg := []
  deriving DecidableEq, Repr

/-- The argument of the rx and tx callbacks of the call: a floor message, with
the class it was handled as, or a media message. -/
inductive CallCbArg where
  | floorMsg (kind : FloorMsgKind) (msg : McpttFloorMsg)
  | mediaMsg (msg : McpttMediaMsg)
  deriving DecidableEq, Repr

/-- The data members of `McpttCall` that the embedded member functions read or
write, with the floor machine of the call and its surroundings. `rxCbSet` and
`txCbSet` tell whether `m_rxCb` and `m_txCb` are non-null; `rxCbCalls` and
`txCbCalls` record their invocations, `floorMachineReceived` the floor messages
passed to `floorMachine->Receive`, and `mediaChanSent` the headers of the
packets handed to the media channel, all oldest first. -/
structure McpttCall where
  floor : FloorWorld := {}
  rxCbSet : Bool := false
  txCbSet : Bool := false
  rxCbCalls : List CallCbArg := []
  txCbCalls : List CallCbArg := []
  floorMachineReceived : List (FloorMsgKind × McpttFloorMsg) := []
  mediaChanSent : List McpttMediaMsg := []
  deriving DecidableEq, Repr

namespace McpttCall

/-- Embeds `McpttCall::Receive (const McpttFloorMsg&)`, for a message of the given
class: the rx callback if it is set, then `floorMachine->Receive (msg)`. -/
def Receive (c : McpttCall) (kind : FloorMsgKind) (msg : McpttFloorMsg) : McpttCall :=
  let c := if c.rxCbSet then { c with rxCbCalls := c.rxCbCalls ++ [.floorMsg kind msg] }
    else c
  { c with floorMachineReceived := c.floorMachineReceived ++ [(kind, msg)] }

/-- Embeds `McpttCall::ReceiveFloorPkt`: the subtype of the top header selects the
message class; a message of that class is removed from the packet and passed to
`Receive`. The result is the call and what is left of the packet; `none` is the
`NS_FATAL_ERROR` of the final `else`. -/
def ReceiveFloorPkt (c : McpttCall) (pkt : FloorPacket) :
    Option (McpttCall × List McpttFloorMsg) :=
  let subtype := pkt.top.subtype
  if subtype = .Request then
    some (c.Receive .Request pkt.top, pkt.rest)
  else if subtype = .Granted ∨ subtype = .GrantedAck then
    some (c.Receive .Granted pkt.top, pkt.rest)
  else if subtype = .Deny ∨ subtype = .DenyAck then
    some (c.Receive .Deny pkt.top, pkt.rest)
  else if subtype = .Release ∨ subtype = .ReleaseAck then
    some (c.Receive .Release pkt.top, pkt.rest)
  else if subtype = .Idle ∨ subtype = .IdleAck then
    some (c.Receive .Idle pkt.top, pkt.rest)
  else if subtype = .Taken ∨ subtype = .TakenAck then
    some (c.Receive .Taken pkt.top, pkt.rest)
  else if subtype = .Revoke then
    some (c.Receive .Revoke pkt.top, pkt.rest)
  else if subtype = .QueuePositionRequest then
    some (c.Receive .QueuePositionRequest pkt.top, pkt.rest)
  else if subtype = .QueuePositionInfo ∨ subtype = .QueuePositionInfoAck then
    some (c.Receive .QueuePositionInfo pkt.top, pkt.rest)
  else if subtype = .Ack then
    some (c.Receive .Ack pkt.top, pkt.rest)
  else none

/-- Embeds `McpttCall::Send (const McpttMediaMsg&)`: a copy of the message goes
through `MediaReady` of the floor machine, the tx callback (if set) is given the
caller's message, and the copy is the header of the packet handed to the media
channel. The result is the call and the caller's message after the call. -/
def SendMedia (hooks : ParticipantStateHooks) (c : McpttCall) (msg : McpttMediaMsg) :
    McpttCall × McpttMediaMsg :=
  let txMsg := msg
  let r := c.floor.MediaReady hooks txMsg
  let c := { c with floor := r.1 }
  let txMsg := r.2
  let c := if c.txCbSet then { c with txCbCalls := c.txCbCalls ++ [.mediaMsg msg] } else c
  let c := { c with mediaChanSent := c.mediaChanSent ++ [txMsg] }
  (c, msg)

end McpttCall

/-! ## The server application -/

/-- The data members of `McpttServerCall` that `McpttServerApp::AddCall` reads or
writes: the call id, the arbitrator, and whether an owner has been set. -/
structure McpttServerCall where
  callId : Nat := 0
  arbitrator : McpttOnNetworkFloorArbitrator := {}
  ownerSet : Bool := false
  deriving DecidableEq, Repr

/-- Insertion into the call map as `std::map::insert` does it: the keys stay in
increasing order and a key already present keeps its value. -/
def mapInsert (k : Nat) (v : McpttServerCall) :
    List (Nat × McpttServerCall) → List (Nat × McpttServerCall)
  | [] => [(k, v)]
  | (k1, v1) :: rest =>
    if k < k1 then (k, v) :: (k1, v1) :: rest
    else if k = k1 then (k1, v1) :: rest
    else (k1, v1) :: mapInsert k v rest

/-- The state of `McpttServerApp` that the embedded member functions read or
write: the static counter `s_callId`, a `uint16_t`, and the call map
`m_calls`. -/
structure McpttServerApp where
  s_callId : Nat := 0
  calls : List (Nat × McpttServerCall) := []
  deriving DecidableEq, Repr

namespace McpttServerApp

/-- Embeds `McpttServerApp::AllocateCallId`: `return s_callId++;` on a `uint16_t`.
The result is the id returned and the application afterwards. -/
def AllocateCallId (app : McpttServerApp) : Nat × McpttServerApp :=
  (app.s_callId, { app with s_callId := (app.s_callId + 1) % 2 ^ 16 })

/-- Embeds `McpttServerApp::AddCall`; `none` is the abort of `NS_ABORT_MSG_IF` on a
call id greater than `s_callId`. -/
def AddCall (app : McpttServerApp) (call : McpttServerCall) : Option McpttServerApp :=
  if call.callId > app.s_callId then none
  else
    let call := { call with arbitrator := call.arbitrator.SetRxCb true }
    let call := { call with arbitrator := call.arbitrator.SetTxCb true }
    let call := { call with ownerSet := true }
    some { app with calls := mapInsert call.callId call app.calls }

/-- The application after `n` calls of `AllocateCallId`. -/
def afterAllocations : Nat → McpttServerApp → McpttServerApp
  | 0, app => app
  | n + 1, app => afterAllocations n app.AllocateCallId.2

/-- The ids returned by `n` successive calls of `AllocateCallId`, oldest first. -/
def allocatedIds : Nat → McpttServerApp → List Nat
  | 0, _ => []
  | n + 1, app => app.AllocateCallId.1 :: allocatedIds n app.AllocateCallId.2

end McpttServerApp

/-! ## The indicator table as the specification words it -/

/-- The priority class the specification derives from a call type: BASIC_GROUP
and PRIVATE give Normal, BROADCAST_GROUP gives Broadcast, IMMINENT_PERIL_GROUP
gives Imminent, EMERGENCY_GROUP and EMERGENCY_PRIVATE give Emergency. -/
def specClassOf : CallTypeId → Option CallClass
  | .BASIC_GROUP => some .Normal
  | .PRIVATE => some .Normal
  | .BROADCAST_GROUP => some .Broadcast
  | .IMMINENT_PERIL_GROUP => some .Imminent
  | .EMERGENCY_GROUP => some .Emergency
  | .EMERGENCY_PRIVATE => some .Emergency
  | .other => none

/-- The indicator bit of a class. -/
def CallClass.bit : CallClass → IndicBit
  | .Normal => .NORMAL_CALL
  | .Broadcast => .BROADCAST_CALL
  | .Imminent => .IMMINENT_CALL
  | .Emergency => .EMERGENCY_CALL

/-- The indicator the table gives for a call type and a dual-floor mode: the bit
of the class of the call type, and the dual-floor bit in dual-floor mode. -/
def specIndicator (callTypeId : CallTypeId) (dualFloor : Bool) : McpttFloorMsgFieldIndic :=
  let dual : McpttFloorMsgFieldIndic := { dualFloor := dualFloor }
  match specClassOf callTypeId with
  | some c => dual.Indicate c.bit
  | none => dual

/-- The call-type class bits an indicator indicates. -/
def callTypeBits (i : McpttFloorMsgFieldIndic) : List IndicBit :=
  [IndicBit.NORMAL_CALL, .BROADCAST_CALL, .IMMINENT_CALL, .EMERGENCY_CALL].filter
    (fun b => i.IsIndicated b)

/-- An INVITE request for the call with the given id. -/
def invitePacket (callId : Nat) : CallPacket :=
  { sip := { messageType := .SIP_REQUEST, method := .INVITE, callId := callId } }

/-- Floor-machine operations that do nothing beyond what `requestingHandlers`
does, with no implicit request. -/
def quietFloorOps : FloorMachineOps where
  states := requestingHandlers
  CallInitiated := fun w => w
  CallEstablished := fun _ _ w => w
  IsImplicitRequest := fun _ => false

/-! ## Whether the call is ongoing -/

namespace ClientWorld

/-- Embeds `m_state->IsCallOngoing (machine)`: the base class answers false and the
S3 class overrides it to answer true. -/
def stateIsCallOngoing : ClientStateId → Bool
  | .S1 => false
  | .S2 => false
  | .S3 => true
  | .S4 => false

/-- Embeds `McpttOnNetworkCallMachineClient::IsCallOngoing`: true unless the state id
is that of S1. -/
def IsCallOngoing (w : ClientWorld) : Bool :=
  if w.machine.state ≠ .S1 then true else false

/-- The world with the machine put in the given state, all else equal. -/
def inState (w : ClientWorld) (state : ClientStateId) : ClientWorld :=
  { w with machine := { w.machine with state := state } }

end ClientWorld

/-! ## The SIP element -/

/-- The dialog states of `SipElement::DialogState`. -/
inductive DialogState where
  | UNINITIALIZED
  | TRYING
  | PROCEEDING
  | EARLY
  | CONFIRMED
  | TERMINATED
  deriving DecidableEq, Repr

/-- The transaction states of `SipElement::TransactionState`. -/
inductive TransactionState where
  | IDLE
  | CALLING
  | TRYING
  | PROCEEDING
  | COMPLETED
  | CONFIRMED
  | TERMINATED
  | FAILED
  deriving DecidableEq, Repr

/-- The event names handed to the event callback of a call. -/
inductive SipEvent where
  | TRYING_RECEIVED
  | ACK_RECEIVED
  | TIMER_A_EXPIRED
  | TIMER_B_EXPIRED
  deriving DecidableEq, Repr

/-- A packet as the SIP element sees it: the SIP headers added to it, the last
added first, and the payload under them. -/
structure SipPacket where
  headers : List SipHeader := []
  payload : List Nat := []
  deriving DecidableEq, Repr

/-- One invocation of a send callback: which callback, and the packet, address
and header it was given. Callbacks and addresses are identified by numbers. -/
structure SipSend where
  callback : Nat
  packet : Option SipPacket
  address : Nat
  header : SipHeader
  deriving DecidableEq, Repr

/-- The fields of `SipElement::Dialog`. -/
structure Dialog where
  callId : Nat
  sendCallback : Nat
  state : DialogState := .UNINITIALIZED
  deriving DecidableEq, Repr

/-- The fields of `SipElement::Transaction`. A timer that is scheduled holds the
time at which it expires; timer A also holds the backoff it was given as
argument. A transaction starts in state IDLE with no cached packet. -/
structure Transaction where
  callId : Nat
  sendCallback : Nat
  state : TransactionState := .IDLE
  packet : Option SipPacket := none
  address : Nat := 0
  sipHeader : SipHeader := {}
  timerA : Option (Nat × Nat) := none
  timerB : Option Nat := none
  deriving DecidableEq, Repr

/-- The data members of `SipElement` with the simulator clock `now`. The maps
`m_dialogs`, `m_transactions`, `m_receiveCallbacks` and `m_eventCallbacks` are
only searched by key and added to, so they are partial functions of the key (for
the callback maps: whether the call id has a callback). The invocations of the
send, receive and event callbacks and the firings of the trace sources are
recorded, oldest first. Times are whole numbers of clock ticks. -/
structure SipElement where
  t1 : Nat := 500
  now : Nat := 0
  defaultSendCallback : Nat := 0
  dialogs : Nat × Nat × Nat → Option Dialog := fun _ => none
  transactions : Nat × Nat × Nat → Option Transaction := fun _ => none
  receiveCallbacks : Nat → Bool := fun _ => false
  eventCallbacks : Nat → Bool := fun _ => false
  sent : List SipSend := []
  txTrace : List SipHeader := []
  rxTrace : List SipHeader := []
  dialogTrace : List ((Nat × Nat × Nat) × DialogState) := []
  transactionTrace : List ((Nat × Nat × Nat) × TransactionState) := []
  receiveCbCalls : List (SipHeader × TransactionState) := []
  eventCbCalls : List (Nat × SipEvent × TransactionState) := []

namespace SipElement

/-- Embeds `SipElement::GetDialogId`: the call id and the two URIs, the smaller
first. -/
def GetDialogId (callId uriA uriB : Nat) : Nat × Nat × Nat :=
  if uriA < uriB then (callId, uriA, uriB) else (callId, uriB, uriA)

/-- Embeds `SipElement::GetTransactionId`. -/
def GetTransactionId (callId sipFrom sipTo : Nat) : Nat × Nat × Nat :=
  (callId, sipFrom, sipTo)

/-- Embeds `SipElement::CreateDialog`; `none` is the abort when the dialog is
already in the map. -/
def CreateDialog (e : SipElement) (id : Nat × Nat × Nat) (sendCallback : Nat) :
    Option SipElement :=
  match e.dialogs id with
  | some _ => none
  | none =>
    let d : Dialog := { callId := id.1, sendCallback := sendCallback, state := .UNINITIALIZED }
    some { e with dialogs := Function.update e.dialogs id (some d) }

/-- Embeds `SipElement::DialogExists`. -/
def DialogExists (e : SipElement) (id : Nat × Nat × Nat) : Bool :=
  (e.dialogs id).isSome

/-- Embeds `SipElement::SetDialogState`; `none` is the abort when the dialog is not
found. -/
def SetDialogState (e : SipElement) (id : Nat × Nat × Nat) (state : DialogState) :
    Option SipElement :=
  match e.dialogs id with
  | none => none
  | some d =>
    some { e with dialogs := Function.update e.dialogs id (some { d with state := state })
                  dialogTrace := e.dialogTrace ++ [(id, state)] }

/-- Embeds `SipElement::CreateTransaction`: a new transaction, or the existing one
put back in state IDLE. -/
def CreateTransaction (e : SipElement) (id : Nat × Nat × Nat) (sendCallback : Nat) :
    SipElement :=
  match e.transactions id with
  | none =>
    let t : Transaction := { callId := id.1, sendCallback := sendCallback }
    { e with transactions := Function.update e.transactions id (some t) }
  | some t =>
    let t : Transaction := { t with state := .IDLE }
    { e with transactions := Function.update e.transactions id (some t) }

/-- Embeds `SipElement::TransactionExists`. -/
def TransactionExists (e : SipElement) (id : Nat × Nat × Nat) : Bool :=
  (e.transactions id).isSome

/-- A change to the transaction with the given id; `none` when there is none,
which is where the callers abort or assert. -/
def updateTransaction (e : SipElement) (id : Nat × Nat × Nat)
    (f : Transaction → Transaction) : Option SipElement :=
  match e.transactions id with
  | none => none
  | some t => some { e with transactions := Function.update e.transactions id (some (f t)) }

/-- Embeds `SipElement::SetTransactionState`; `none` is the abort when the
transaction is not found. -/
def SetTransactionState (e : SipElement) (id : Nat × Nat × Nat)
    (state : TransactionState) : Option SipElement :=
  (e.updateTransaction id fun t => { t with state := state }).map fun e1 =>
    { e1 with transactionTrace := e1.transactionTrace ++ [(id, state)] }

/-- Embeds `SipElement::CacheTransactionPacket`. -/
def CacheTransactionPacket (e : SipElement) (id : Nat × Nat × Nat) (p : SipPacket)
    (addr : Nat) (hdr : SipHeader) : Option SipElement :=
  e.updateTransaction id fun t =>
    { t with packet := some p, address := addr, sipHeader := hdr }

/-- Embeds `SipElement::FreeTransactionPacket`: nothing when the transaction is not
found. -/
def FreeTransactionPacket (e : SipElement) (id : Nat × Nat × Nat) : SipElement :=
  match e.updateTransaction id fun t => { t with packet := none } with
  | some e1 => e1
  | none => e

/-- Embeds `SipElement::ScheduleTimerA`: timer A of the transaction is scheduled
`backoff * m_t1` from now, with the backoff as argument of its handler. The timer
class is not among the sources; scheduling replaces what the timer held. -/
def ScheduleTimerA (e : SipElement) (id : Nat × Nat × Nat) (backoff : Nat) :
    Option SipElement :=
  e.updateTransaction id fun t => { t with timerA := some (e.now + backoff * e.t1, backoff) }

/-- Embeds `SipElement::CancelTimerA`. -/
def CancelTimerA (e : SipElement) (id : Nat × Nat × Nat) : Option SipElement :=
  e.updateTransaction id fun t => { t with timerA := none }

/-- Embeds `SipElement::ScheduleTimerB`: timer B of the transaction is scheduled
`64 * m_t1` from now. -/
def ScheduleTimerB (e : SipElement) (id : Nat × Nat × Nat) : Option SipElement :=
  e.updateTransaction id fun t => { t with timerB := some (e.now + 64 * e.t1) }

/-- Embeds `SipElement::CancelTimerB`. -/
def CancelTimerB (e : SipElement) (id : Nat × Nat × Nat) : Option SipElement :=
  e.updateTransaction id fun t => { t with timerB := none }

/-- An invocation of a send callback. -/
def invokeSend (e : SipElement) (callback : Nat) (packet : Option SipPacket)
    (address : Nat) (header : SipHeader) : SipElement :=
  { e with sent := e.sent ++
      [{ callback := callback, packet := packet, address := address, header := header }] }

/-- A firing of the `TxTrace` source. -/
def traceTx (e : SipElement) (header : SipHeader) : SipElement :=
  { e with txTrace := e.txTrace ++ [header] }

/-- An invocation of the event callback of a call. -/
def invokeEvent (e : SipElement) (callId : Nat) (event : SipEvent)
    (state : TransactionState) : SipElement :=
  { e with eventCbCalls := e.eventCbCalls ++ [(callId, event, state)] }

/-- An invocation of the receive callback of the call of the header. -/
def invokeReceive (e : SipElement) (header : SipHeader) (state : TransactionState) :
    SipElement :=
  { e with receiveCbCalls := e.receiveCbCalls ++ [(header, state)] }

/-- Embeds `SipElement::SendInvite`. -/
def SendInvite (e : SipElement) (p : SipPacket) (addr requestUri sipFrom sipTo callId : Nat)
    (sendCallback : Nat) : Option SipElement := do
  let e ← e.CreateDialog (GetDialogId callId sipFrom sipTo) sendCallback
  let e ← e.SetDialogState (GetDialogId callId sipFrom sipTo) .TRYING
  let tid := GetTransactionId callId sipFrom sipTo
  let e := e.CreateTransaction tid sendCallback
  let e ← e.SetTransactionState tid .CALLING
  let header : SipHeader :=
    { messageType := .SIP_REQUEST, method := .INVITE, requestUri := requestUri,
      sipFrom := sipFrom, sipTo := sipTo, callId := callId }
  let p := { p with headers := header :: p.headers }
  let e ← e.CacheTransactionPacket tid p addr header
  let e := e.invokeSend sendCallback (some p) addr header
  let e := e.traceTx header
  let backoff := 1
  let e ← e.ScheduleTimerA tid backoff
  e.ScheduleTimerB tid

/-- Embeds `SipElement::SendResponse`; `none` is the failure of the assertion that
the dialog exists, or an abort in a callee. -/
def SendResponse (e : SipElement) (p : SipPacket) (addr statusCode sipFrom sipTo callId : Nat)
    (sendCallback : Nat) : Option SipElement := do
  let tid := GetTransactionId callId sipFrom sipTo
  let did := GetDialogId callId sipFrom sipTo
  let d ← e.dialogs did
  let d := { d with sendCallback := sendCallback }
  let e := { e with dialogs := Function.update e.dialogs did (some d) }
  let e ←
    if statusCode = 100 then
      (e.SetDialogState did .PROCEEDING).bind fun e1 =>
        e1.SetTransactionState tid .PROCEEDING
    else if statusCode = 200 then
      if d.state = .TRYING then
        (e.SetDialogState did .CONFIRMED).bind fun e1 =>
          e1.SetTransactionState tid .COMPLETED
      else if d.state = .TERMINATED then
        e.SetTransactionState tid .COMPLETED
      else some e
    else some e
  let header : SipHeader :=
    { messageType := .SIP_RESPONSE, statusCode := statusCode,
      sipFrom := sipFrom, sipTo := sipTo, callId := callId }
  let p := { p with headers := header :: p.headers }
  let e := e.invokeSend sendCallback (some p) addr header
  some (e.traceTx header)

/-- The ACK request built on a 200 response. -/
def ackHeader (sipHeader : SipHeader) : SipHeader :=
  { messageType := .SIP_REQUEST, method := .ACK, requestUri := sipHeader.requestUri,
    sipFrom := sipHeader.sipFrom, sipTo := sipHeader.sipTo, callId := sipHeader.callId }

/-- Embeds `SipElement::Receive`, for a packet whose top header, removed first, is
`sipHeader`, from the given address; `none` is a fatal error, an abort, a failed
assertion or, for a 200 response, the use of a dialog that is not in the map. -/
def Receive (e : SipElement) (sipHeader : SipHeader) (fromAddr : Nat) :
    Option SipElement := do
  let e := { e with rxTrace := e.rxTrace ++ [sipHeader] }
  let tid := GetTransactionId sipHeader.callId sipHeader.sipFrom sipHeader.sipTo
  let did := GetDialogId sipHeader.callId sipHeader.sipFrom sipHeader.sipTo
  if e.eventCallbacks sipHeader.callId = false ∨ e.receiveCallbacks sipHeader.callId = false
  then none
  else if sipHeader.messageType = .SIP_RESPONSE then
    if sipHeader.statusCode = 100 then do
      let e := e.invokeEvent sipHeader.callId .TRYING_RECEIVED .PROCEEDING
      let e ← e.SetDialogState did .PROCEEDING
      let e ← e.SetTransactionState tid .PROCEEDING
      let e ← e.CancelTimerA tid
      let e ← e.CancelTimerB tid
      some (e.FreeTransactionPacket tid)
    else if sipHeader.statusCode = 200 then do
      let d ← e.dialogs did
      if d.state = .TRYING ∨ d.state = .PROCEEDING then do
        let e ← e.SetDialogState did .CONFIRMED
        let e ← e.CancelTimerA tid
        let e ← e.CancelTimerB tid
        let e ← e.SetTransactionState tid .TERMINATED
        let e := e.FreeTransactionPacket tid
        let e := e.invokeReceive sipHeader .TERMINATED
        let header := ackHeader sipHeader
        let e := e.invokeSend d.sendCallback (some { headers := [header] }) fromAddr header
        some (e.traceTx header)
      else if d.state = .CONFIRMED then
        let header := ackHeader sipHeader
        let e := e.invokeSend d.sendCallback (some { headers := [header] }) fromAddr header
        some (e.traceTx header)
      else if d.state = .TERMINATED then do
        let e ← e.SetTransactionState tid .COMPLETED
        some (e.invokeReceive sipHeader .COMPLETED)
      else none
    else some e
  else if sipHeader.messageType = .SIP_REQUEST then
    if sipHeader.method = .INVITE then
      match e.dialogs did with
      | none => do
        let e ← e.CreateDialog did e.defaultSendCallback
        let e ← e.SetDialogState did .TRYING
        let e := e.CreateTransaction tid e.defaultSendCallback
        let e ← e.SetTransactionState tid .TRYING
        some (e.invokeReceive sipHeader .TRYING)
      | some _ => some e
    else if sipHeader.method = .BYE then do
      let e ← e.SetDialogState did .TERMINATED
      let e := if e.TransactionExists tid then e
        else e.CreateTransaction tid e.defaultSendCallback
      let e ← e.SetTransactionState tid .TRYING
      some (e.invokeReceive sipHeader .TRYING)
    else if sipHeader.method = .ACK then
      let e := e.invokeEvent sipHeader.callId .ACK_RECEIVED .CONFIRMED
      e.SetTransactionState tid .CONFIRMED
    else some e
  else some e

/-- Embeds `SipElement::SetCallbacks`; `none` is the fatal error when the call id
already has a callback. -/
def SetCallbacks (e : SipElement) (callId : Nat) : Option SipElement :=
  if e.receiveCallbacks callId then none
  else
    let e := { e with receiveCallbacks := Function.update e.receiveCallbacks callId true }
    if e.eventCallbacks callId then none
    else some { e with eventCallbacks := Function.update e.eventCallbacks callId true }

/-- Embeds `SipElement::HandleTimerA`; `none` is a failed assertion. The backoff is a
`uint32_t`, doubled by a left shift. -/
def HandleTimerA (e : SipElement) (id : Nat × Nat × Nat) (backoff : Nat) :
    Option SipElement := do
  if e.eventCallbacks id.1 = false then none
  else
    let t ← e.transactions id
    if t.state ≠ .CALLING then none
    else
      let e := e.invokeEvent id.1 .TIMER_A_EXPIRED t.state
      let e := e.invokeSend t.sendCallback t.packet t.address t.sipHeader
      let backoff := (backoff * 2) % 2 ^ 32
      e.ScheduleTimerA id backoff

/-- Embeds `SipElement::HandleTimerB`; `none` is a failed assertion or an abort in a
callee. -/
def HandleTimerB (e : SipElement) (id : Nat × Nat × Nat) : Option SipElement := do
  let did := GetDialogId id.1 id.2.1 id.2.2
  if e.eventCallbacks id.1 = false then none
  else
    let t ← e.transactions id
    if t.state ≠ .CALLING then none
    else
      let e := e.invokeEvent id.1 .TIMER_B_EXPIRED t.state
      let e ← e.CancelTimerA id
      let e ← e.SetTransactionState id .FAILED
      e.SetDialogState did .TERMINATED

/-- Modelled from the spec: the simulator is not among the sources; the spec has
a logical-time scheduler that runs one callback at a time, each timer firing
once its delay has elapsed. This is the next expiry among the two timers of one
transaction: the clock moves to the expiry time of the earlier timer (timer B
when both expire at the same time), which is no longer scheduled, and its
handler runs; `none` when neither timer is scheduled or the handler asserts. -/
def nextTimerEvent (e : SipElement) (id : Nat × Nat × Nat) : Option SipElement := do
  let t ← e.transactions id
  match t.timerA, t.timerB with
  | some (ta, backoff), some tb =>
    if ta < tb then
      ({ e with now := ta }.updateTransaction id fun t1 => { t1 with timerA := none }).bind
        fun e1 => e1.HandleTimerA id backoff
    else
      ({ e with now := tb }.updateTransaction id fun t1 => { t1 with timerB := none }).bind
        fun e1 => e1.HandleTimerB id
  | some (ta, backoff), none =>
    ({ e with now := ta }.updateTransaction id fun t1 => { t1 with timerA := none }).bind
      fun e1 => e1.HandleTimerA id backoff
  | none, some tb =>
    ({ e with now := tb }.updateTransaction id fun t1 => { t1 with timerB := none }).bind
      fun e1 => e1.HandleTimerB id
  | none, none => none

/-- The element after the next `n` timer expiries of the transaction. -/
def timerEvents (id : Nat × Nat × Nat) : Nat → SipElement → Option SipElement
  | 0, e => some e
  | n + 1, e => (e.nextTimerEvent id).bind (timerEvents id n)

/-- The element with the given dialog under the given identifier. -/
def withDialog (e : SipElement) (id : Nat × Nat × Nat) (d : Dialog) : SipElement :=
  { e with dialogs := Function.update e.dialogs id (some d) }

/-- The element with the given transaction under the given identifier. -/
def withTransaction (e : SipElement) (id : Nat × Nat × Nat) (t : Transaction) : SipElement :=
  { e with transactions := Function.update e.transactions id (some t) }

/-- The state of the dialog with the given identifier, if there is one. -/
def dialogState (e : SipElement) (id : Nat × Nat × Nat) : Option DialogState :=
  (e.dialogs id).map fun d => d.state

/-- The state of the transaction with the given identifier, if there is one. -/
def transactionState (e : SipElement) (id : Nat × Nat × Nat) : Option TransactionState :=
  (e.transactions id).map fun t => t.state

end SipElement

/-- The INVITE request that `SendInvite` builds. -/
def inviteHeader (requestUri sipFrom sipTo callId : Nat) : SipHeader :=
  { messageType := .SIP_REQUEST, method := .INVITE, requestUri := requestUri,
    sipFrom := sipFrom, sipTo := sipTo, callId := callId }

/-- A response with the given status code. -/
def responseHeader (statusCode sipFrom sipTo callId : Nat) : SipHeader :=
  { messageType := .SIP_RESPONSE, statusCode := statusCode,
    sipFrom := sipFrom, sipTo := sipTo, callId := callId }

/-- What the send callback is given when `SendInvite` sends the INVITE: the packet
with the INVITE header on top, the address and the header. -/
def sentInvite (p : SipPacket) (addr requestUri sipFrom sipTo callId sendCallback : Nat) :
    SipSend :=
  { callback := sendCallback
    packet := some { p with headers := inviteHeader requestUri sipFrom sipTo callId :: p.headers }
    address := addr
    header := inviteHeader requestUri sipFrom sipTo callId }

/-- A SIP element with T1 of 500 ticks on which `SetCallbacks` has been called for
call 7 and nothing else has happened. -/
def sipEndpoint : SipElement :=
  { receiveCallbacks := Function.update (fun _ => false) 7 true
    eventCallbacks := Function.update (fun _ => false) 7 true }

/-- The element waits for a response to the INVITE of transaction `id`, sent at time
`start` by the send `x`, after `n` expiries of timer A: the clock is at
`start + (2 ^ n - 1) * T1`, the transaction is in state CALLING and caches what `x`
sent, timer A is scheduled `2 ^ n * T1` later with backoff `2 ^ n`, timer B is
scheduled at `start + 64 * T1`, and since the INVITE `x` has been sent `n` more times
and the event callback invoked `n` more times, with the expiry of timer A. -/
def SipElement.awaitingResponse (e : SipElement) (id : Nat × Nat × Nat) (start : Nat)
    (x : SipSend) (sent0 : List SipSend)
    (events0 : List (Nat × SipEvent × TransactionState)) (n : Nat) : Prop :=
  e.now = start + (2 ^ n - 1) * e.t1 ∧
  e.eventCallbacks id.1 = true ∧
  (e.dialogs (SipElement.GetDialogId id.1 id.2.1 id.2.2)).isSome = true ∧
  e.sent = sent0 ++ List.replicate n x ∧
  e.eventCbCalls = events0 ++ List.replicate n (id.1, .TIMER_A_EXPIRED, .CALLING) ∧
  ∃ t, e.transactions id = some t ∧ t.state = .CALLING ∧
    t.sendCallback = x.callback ∧ t.packet = x.packet ∧ t.address = x.address ∧
    t.sipHeader = x.header ∧
    t.timerA = some (start + (2 ^ (n + 1) - 1) * e.t1, 2 ^ n) ∧
    t.timerB = some (start + 64 * e.t1)

/-! ## Theorems: the preemption rule -/

section Preemption

open McpttOnNetworkFloorArbitrator

/-- The call-type bits of the indicator `GetIndicator` builds, by call type. -/
theorem getIndicator_bits (a : McpttOnNetworkFloorArbitrator) :
    (a.GetIndicator.IsIndicated .NORMAL_CALL =
        decide (a.callTypeId = .BASIC_GROUP ∨ a.callTypeId = .PRIVATE)) ∧
    (a.GetIndicator.IsIndicated .BROADCAST_CALL =
        decide (a.callTypeId = .BROADCAST_GROUP)) ∧
    (a.GetIndicator.IsIndicated .IMMINENT_CALL =
        decide (a.callTypeId = .IMMINENT_PERIL_GROUP)) ∧
    (a.GetIndicator.IsIndicated .EMERGENCY_CALL =
        decide (a.callTypeId = .EMERGENCY_GROUP ∨ a.callTypeId = .EMERGENCY_PRIVATE)) := by
  cases hct : a.callTypeId <;> cases hd : a.dualControlStarted <;>
    simp [GetIndicator, IsDualFloor, McpttFloorMsgFieldIndic.Indicate,
      McpttFloorMsgFieldIndic.IsIndicated, hct, hd]

/-- C1 (as stated, refuted): a Normal request of priority 5 against a
BROADCAST_GROUP call whose stored priority is 3 has the class of the call
(Normal = Broadcast) and the greater priority, so the stated rule preempts, yet
`IsPreemptive` returns false. -/
theorem C1_counterexample :
    indicClass ({ normalCall := true } : McpttFloorMsgFieldIndic) = some .Normal ∧
    indicClass (GetIndicator { callTypeId := .BROADCAST_GROUP, storedPriority := 3 })
      = some .Broadcast ∧
    ¬ (IsPreemptive { callTypeId := .BROADCAST_GROUP, storedPriority := 3 }
          { ssrc := 1, priority := 5, indicator := { normalCall := true } } = some true ↔
        specPreempts .Normal 5 .Broadcast 3) := by
  decide

/-- Embeds `IsPreemptive` in closed form: which request bit selects the branch, and what
each branch returns in terms of the call type and the two priorities. -/
theorem isPreemptive_eq (a : McpttOnNetworkFloorArbitrator) (msg : McpttFloorMsgRequest) :
    IsPreemptive a msg =
      if msg.indicator.normalCall then
        some (decide ((a.callTypeId = .BASIC_GROUP ∨ a.callTypeId = .PRIVATE) ∧
          msg.priority > a.storedPriority))
      else if msg.indicator.imminentCall then
        some (decide ((a.callTypeId = .BASIC_GROUP ∨ a.callTypeId = .PRIVATE) ∨
          (a.callTypeId = .IMMINENT_PERIL_GROUP ∧ msg.priority > a.storedPriority)))
      else if msg.indicator.emergencyCall then
        some (decide ((a.callTypeId = .BASIC_GROUP ∨ a.callTypeId = .PRIVATE ∨
          a.callTypeId = .IMMINENT_PERIL_GROUP) ∨ msg.priority > a.storedPriority))
      else none := by
  have hb := getIndicator_bits a
  simp only [IsPreemptive, hb.1, hb.2.2.1, hb.2.2.2, GetStoredPriority]
  simp only [McpttFloorMsgFieldIndic.IsIndicated]
  by_cases hp : a.storedPriority < msg.priority <;>
    cases hct : a.callTypeId <;>
      rcases Bool.eq_false_or_eq_true msg.indicator.normalCall with hn | hn <;>
        rcases Bool.eq_false_or_eq_true msg.indicator.imminentCall with hi | hi <;>
          rcases Bool.eq_false_or_eq_true msg.indicator.emergencyCall with he | he <;>
            simp [hp, hn, hi, he]

/-- The class of the indicator `GetIndicator` builds, by call type. -/
theorem indicClass_getIndicator (a : McpttOnNetworkFloorArbitrator) :
    indicClass a.GetIndicator =
      match a.callTypeId with
      | .BASIC_GROUP => some .Normal
      | .PRIVATE => some .Normal
      | .BROADCAST_GROUP => some .Broadcast
      | .IMMINENT_PERIL_GROUP => some .Imminent
      | .EMERGENCY_GROUP => some .Emergency
      | .EMERGENCY_PRIVATE => some .Emergency
      | .other => none := by
  have hb := getIndicator_bits a
  simp only [indicClass, hb.1, hb.2.1, hb.2.2.1, hb.2.2.2]
  cases hct : a.callTypeId <;> simp

/-- The class of a request indicator, by its bits. -/
theorem indicClass_eq_some (i : McpttFloorMsgFieldIndic) (c : CallClass) :
    indicClass i = some c ↔
      (c = .Normal ∧ i.normalCall = true) ∨
      (c = .Imminent ∧ i.normalCall = false ∧ i.imminentCall = true) ∨
      (c = .Emergency ∧ i.normalCall = false ∧ i.imminentCall = false ∧
        i.emergencyCall = true) ∨
      (c = .Broadcast ∧ i.normalCall = false ∧ i.imminentCall = false ∧
        i.emergencyCall = false ∧ i.broadcastCall = true) := by
  cases c <;> rcases Bool.eq_false_or_eq_true i.normalCall with hn | hn <;>
    rcases Bool.eq_false_or_eq_true i.imminentCall with hi | hi <;>
      rcases Bool.eq_false_or_eq_true i.emergencyCall with he | he <;>
        rcases Bool.eq_false_or_eq_true i.broadcastCall with hb | hb <;>
          simp [indicClass, McpttFloorMsgFieldIndic.IsIndicated, hn, hi, he, hb]

/-- C1 (amended): for every request whose class is Normal, Imminent or Emergency
and every call whose indicator (as `GetIndicator` derives it from the call type)
is Normal, Imminent or Emergency, `IsPreemptive` returns a boolean, and it is
true exactly when the request's class is strictly higher than the call's, or the
classes are equal and the request's priority is strictly greater than the stored
priority, under the order Emergency > Imminent > Normal. -/
theorem C1_isPreemptive_rule (a : McpttOnNetworkFloorArbitrator)
    (msg : McpttFloorMsgRequest) (rc cc : CallClass)
    (hr : indicClass msg.indicator = some rc) (hrb : rc ≠ .Broadcast)
    (hc : indicClass a.GetIndicator = some cc) (hcb : cc ≠ .Broadcast) :
    (∃ b, IsPreemptive a msg = some b) ∧
    (IsPreemptive a msg = some true ↔
      specPreempts rc msg.priority cc a.storedPriority) := by
  rw [indicClass_getIndicator] at hc
  rw [indicClass_eq_some] at hr
  rw [isPreemptive_eq]
  cases hct : a.callTypeId <;> cases rc <;> cases cc <;>
    simp_all [specPreempts, CallClass.rank]

/-- C1 (amended), at an instance: an Imminent request of priority 2 against an
Imminent call whose stored priority is 1. -/
theorem C1_isPreemptive_rule_witness :
    (∃ b, IsPreemptive { callTypeId := .IMMINENT_PERIL_GROUP, storedPriority := 1 }
        { ssrc := 7, priority := 2, indicator := { imminentCall := true } } = some b) ∧
    (IsPreemptive { callTypeId := .IMMINENT_PERIL_GROUP, storedPriority := 1 }
        { ssrc := 7, priority := 2, indicator := { imminentCall := true } } = some true ↔
      specPreempts .Imminent 2 .Imminent 1) :=
  C1_isPreemptive_rule { callTypeId := .IMMINENT_PERIL_GROUP, storedPriority := 1 }
    { ssrc := 7, priority := 2, indicator := { imminentCall := true } } .Imminent .Imminent
    (by decide) (by decide) (by decide) (by decide)

/-- C2: whatever the request priority and the stored priority, `IsPreemptive`
returns true for an Emergency request when the call's indicator is Normal or
Imminent, and for an Imminent request when the call's indicator is Normal. -/
theorem C2_higher_class_preempts (a : McpttOnNetworkFloorArbitrator)
    (msg : McpttFloorMsgRequest)
    (h : (indicClass msg.indicator = some .Emergency ∧
            (indicClass a.GetIndicator = some .Normal ∨
              indicClass a.GetIndicator = some .Imminent)) ∨
         (indicClass msg.indicator = some .Imminent ∧
            indicClass a.GetIndicator = some .Normal)) :
    IsPreemptive a msg = some true := by
  rw [indicClass_getIndicator] at h
  simp only [indicClass_eq_some] at h
  rw [isPreemptive_eq]
  cases hct : a.callTypeId <;>
    rcases Bool.eq_false_or_eq_true msg.indicator.normalCall with hn | hn <;>
      rcases Bool.eq_false_or_eq_true msg.indicator.imminentCall with hi | hi <;>
        rcases Bool.eq_false_or_eq_true msg.indicator.emergencyCall with he | he <;>
          simp_all

/-- C2, at the specification's instance: an Emergency request of priority 5
against a Normal call whose holder has priority 3. -/
theorem C2_higher_class_preempts_witness :
    IsPreemptive { callTypeId := .BASIC_GROUP, storedSsrc := 9, storedPriority := 3 }
      { ssrc := 4, priority := 5, indicator := { emergencyCall := true } } = some true :=
  C2_higher_class_preempts
    { callTypeId := .BASIC_GROUP, storedSsrc := 9, storedPriority := 3 }
    { ssrc := 4, priority := 5, indicator := { emergencyCall := true } }
    (by decide)

/-- C3 (as stated, refuted): a request that indicates only a broadcast call, of
priority 3, against a BROADCAST_GROUP call whose stored priority is 3, has the
class of the call and the stored priority, yet `IsPreemptive` does not return
false: it reaches the fatal error. -/
theorem C3_counterexample :
    indicClass ({ broadcastCall := true } : McpttFloorMsgFieldIndic) =
      indicClass (GetIndicator { callTypeId := .BROADCAST_GROUP, storedPriority := 3 }) ∧
    IsPreemptive { callTypeId := .BROADCAST_GROUP, storedPriority := 3 }
      { ssrc := 1, priority := 3, indicator := { broadcastCall := true } } ≠ some false := by
  decide

/-- C3 (amended): for every request that indicates a Normal, Imminent or
Emergency call, whose class has the rank of the class of the call's indicator
and whose priority equals the stored priority, `IsPreemptive` returns false. -/
theorem C3_equal_never_preempts (a : McpttOnNetworkFloorArbitrator)
    (msg : McpttFloorMsgRequest) (rc cc : CallClass)
    (hr : indicClass msg.indicator = some rc) (hrb : rc ≠ .Broadcast)
    (hc : indicClass a.GetIndicator = some cc) (hrank : rc.rank = cc.rank)
    (hp : msg.priority = a.storedPriority) :
    IsPreemptive a msg = some false := by
  rw [indicClass_getIndicator] at hc
  rw [indicClass_eq_some] at hr
  rw [isPreemptive_eq]
  cases hct : a.callTypeId <;> cases rc <;> cases cc <;> simp_all [CallClass.rank]

/-- C3 (amended), at the specification's instance: a Normal request of priority 3
against a Normal call whose holder has priority 3. -/
theorem C3_equal_never_preempts_witness :
    IsPreemptive { callTypeId := .BASIC_GROUP, storedSsrc := 9, storedPriority := 3 }
      { ssrc := 4, priority := 3, indicator := { normalCall := true } } = some false :=
  C3_equal_never_preempts
    { callTypeId := .BASIC_GROUP, storedSsrc := 9, storedPriority := 3 }
    { ssrc := 4, priority := 3, indicator := { normalCall := true } } .Normal .Normal
    (by decide) (by decide) (by decide) (by decide) (by decide)

/-- C4: whatever the request priority and the stored priority, `IsPreemptive`
returns false for a Normal request when the call's indicator is Imminent or
Emergency, and for an Imminent request when the call's indicator is Emergency. -/
theorem C4_lower_class_never_preempts (a : McpttOnNetworkFloorArbitrator)
    (msg : McpttFloorMsgRequest)
    (h : (indicClass msg.indicator = some .Normal ∧
            (indicClass a.GetIndicator = some .Imminent ∨
              indicClass a.GetIndicator = some .Emergency)) ∨
         (indicClass msg.indicator = some .Imminent ∧
            indicClass a.GetIndicator = some .Emergency)) :
    IsPreemptive a msg = some false := by
  rw [indicClass_getIndicator] at h
  simp only [indicClass_eq_some] at h
  rw [isPreemptive_eq]
  cases hct : a.callTypeId <;>
    rcases Bool.eq_false_or_eq_true msg.indicator.normalCall with hn | hn <;>
      rcases Bool.eq_false_or_eq_true msg.indicator.imminentCall with hi | hi <;>
        rcases Bool.eq_false_or_eq_true msg.indicator.emergencyCall with he | he <;>
          simp_all

/-- C4, at the specification's instance: a Normal request of priority 2 against
an Emergency call whose holder has priority 1. -/
theorem C4_lower_class_never_preempts_witness :
    IsPreemptive { callTypeId := .EMERGENCY_GROUP, storedSsrc := 9, storedPriority := 1 }
      { ssrc := 4, priority := 2, indicator := { normalCall := true } } = some false :=
  C4_lower_class_never_preempts
    { callTypeId := .EMERGENCY_GROUP, storedSsrc := 9, storedPriority := 1 }
    { ssrc := 4, priority := 2, indicator := { normalCall := true } }
    (by decide)

/-- C5 (as stated, refuted): `IsPreemptive` returns no boolean for a request
that indicates no call type at all, nor for one that indicates only a broadcast
call: both reach the fatal error. -/
theorem C5_counterexample :
    (¬ ∃ b, IsPreemptive { callTypeId := .BASIC_GROUP, storedPriority := 1 }
        { ssrc := 1, priority := 1, indicator := {} } = some b) ∧
    (¬ ∃ b, IsPreemptive { callTypeId := .BROADCAST_GROUP, storedPriority := 1 }
        { ssrc := 1, priority := 1, indicator := { broadcastCall := true } } = some b) := by
  constructor <;> simp [isPreemptive_eq]

/-- C5 (amended): for every arbitrator state and every request, `IsPreemptive`
returns a boolean exactly when the request indicates a Normal, an Imminent or an
Emergency call; for every other request it reaches the fatal error. -/
theorem C5_isPreemptive_returns_iff (a : McpttOnNetworkFloorArbitrator)
    (msg : McpttFloorMsgRequest) :
    ((∃ b, IsPreemptive a msg = some b) ↔
      (msg.indicator.IsIndicated .NORMAL_CALL = true ∨
        msg.indicator.IsIndicated .IMMINENT_CALL = true ∨
        msg.indicator.IsIndicated .EMERGENCY_CALL = true)) ∧
    (IsPreemptive a msg = none ↔
      (msg.indicator.IsIndicated .NORMAL_CALL = false ∧
        msg.indicator.IsIndicated .IMMINENT_CALL = false ∧
        msg.indicator.IsIndicated .EMERGENCY_CALL = false)) := by
  rw [isPreemptive_eq]
  rcases Bool.eq_false_or_eq_true msg.indicator.normalCall with hn | hn <;>
    rcases Bool.eq_false_or_eq_true msg.indicator.imminentCall with hi | hi <;>
      rcases Bool.eq_false_or_eq_true msg.indicator.emergencyCall with he | he <;>
        simp [McpttFloorMsgFieldIndic.IsIndicated, hn, hi, he]

end Preemption

/-! ## Theorems: push-to-talk on a broadcast call -/

section Push

/-- C7: in every participant state, `PttPush` on a BROADCAST_GROUP call sends no
floor message, leaves the participant (its state included) as it was, does not
depend on the state handlers (the state's `PttPush` handler is not run), and
tells the application `Released ()` once if it is pushed and not at all
otherwise; on every other call type it is the current state's `PttPush`
handler. -/
theorem C7_pttPush_broadcast_denied_locally (h : ParticipantStateHandlers)
    (w : FloorWorld) :
    (w.machine.callTypeId = .BROADCAST_GROUP →
      (w.PttPush h).sentFloorMsgs = w.sentFloorMsgs ∧
      (w.PttPush h).machine = w.machine ∧
      (w.PttPush h).appReleasedCalls =
        w.appReleasedCalls + (if w.appPushed then 1 else 0) ∧
      (∀ h2 : ParticipantStateHandlers, w.PttPush h2 = w.PttPush h)) ∧
    (w.machine.callTypeId ≠ .BROADCAST_GROUP →
      w.PttPush h = h.PttPush w.machine.state w) := by
  constructor
  · intro hb
    cases hp : w.appPushed <;>
      simp [FloorWorld.PttPush, McpttOnNetworkFloorParticipant.GetCallTypeId, hb, hp,
        FloorWorld.appReleased]
  · intro hb
    simp [FloorWorld.PttPush, McpttOnNetworkFloorParticipant.GetCallTypeId, hb]

/-- C7, at two instances: a pushed application on a BROADCAST_GROUP call, the
participant being in the Idle state, with a handler that would have sent a Floor
Request; and the same push on a BASIC_GROUP call, which goes to the handler. -/
theorem C7_pttPush_broadcast_denied_locally_witness :
    (FloorWorld.PttPush requestingHandlers
        { machine := { callTypeId := .BROADCAST_GROUP, state := .Idle },
          appPushed := true }).sentFloorMsgs = [] ∧
    (FloorWorld.PttPush requestingHandlers
        { machine := { callTypeId := .BROADCAST_GROUP, state := .Idle },
          appPushed := true }).machine.state = .Idle ∧
    (FloorWorld.PttPush requestingHandlers
        { machine := { callTypeId := .BROADCAST_GROUP, state := .Idle },
          appPushed := true }).appReleasedCalls = 1 ∧
    FloorWorld.PttPush requestingHandlers
        { machine := { callTypeId := .BASIC_GROUP, state := .Idle }, appPushed := true } =
      requestingHandlers.PttPush .Idle
        { machine := { callTypeId := .BASIC_GROUP, state := .Idle }, appPushed := true } := by
  have h := (C7_pttPush_broadcast_denied_locally requestingHandlers
    { machine := { callTypeId := .BROADCAST_GROUP, state := .Idle },
      appPushed := true }).1 rfl
  have h2 := (C7_pttPush_broadcast_denied_locally requestingHandlers
    { machine := { callTypeId := .BASIC_GROUP, state := .Idle },
      appPushed := true }).2 (by decide)
  refine ⟨h.1, ?_, h.2.2.1, h2⟩
  rw [h.2.1]

end Push

/-! ## Theorems: stopping -/

section Stopping

/-- A timer is not running after the guarded stop. -/
theorem stopIfRunning_not_running (t : McpttTimer) :
    (stopIfRunning t).IsRunning = false := by
  cases h : t.running <;> simp [stopIfRunning, McpttTimer.IsRunning, McpttTimer.Stop, h]

/-- C9: for every arbitrator state and every roster, after
`McpttOnNetworkFloorArbitrator::Stop` none of T1, T2, T3, T4, T7 and T20 is
running, and every proxy of the roster has received one more `Stop ()`, the
roster being otherwise what it was. -/
theorem C9_arbitrator_stop (a : McpttOnNetworkFloorArbitrator) :
    a.Stop.t1.IsRunning = false ∧ a.Stop.t2.IsRunning = false ∧
    a.Stop.t3.IsRunning = false ∧ a.Stop.t4.IsRunning = false ∧
    a.Stop.t7.IsRunning = false ∧ a.Stop.t20.IsRunning = false ∧
    a.Stop.participants = a.participants.map TowardsParticipant.Stop ∧
    a.Stop.participants.map (fun p => p.stopCalls) =
      a.participants.map (fun p => p.stopCalls + 1) ∧
    a.Stop.participants.map (fun p => p.storedSsrc) =
      a.participants.map (fun p => p.storedSsrc) := by
  simp [McpttOnNetworkFloorArbitrator.Stop, stopIfRunning_not_running,
    TowardsParticipant.Stop, Function.comp_def]

/-- C10: for every participant state, after
`McpttOnNetworkFloorParticipant::Stop` none of T100, T101, T103, T104 and T132
is running; and the call machine's `Stop` invokes that `Stop`, once, on the
floor machine of its call, whose timers are therefore not running afterwards. -/
theorem C10_participant_stop (p : McpttOnNetworkFloorParticipant) (w : ClientWorld) :
    (p.Stop.t100.IsRunning = false ∧ p.Stop.t101.IsRunning = false ∧
      p.Stop.t103.IsRunning = false ∧ p.Stop.t104.IsRunning = false ∧
      p.Stop.t132.IsRunning = false) ∧
    (w.Stop.floor.machine = w.floor.machine.Stop ∧
      w.Stop.floorCalls = w.floorCalls ++ [.Stop] ∧
      w.Stop.floor.machine.t100.IsRunning = false ∧
      w.Stop.floor.machine.t101.IsRunning = false ∧
      w.Stop.floor.machine.t103.IsRunning = false ∧
      w.Stop.floor.machine.t104.IsRunning = false ∧
      w.Stop.floor.machine.t132.IsRunning = false) := by
  have hs : w.Stop.floor.machine = w.floor.machine.Stop ∧
      w.Stop.floorCalls = w.floorCalls ++ [.Stop] := by
    simp [ClientWorld.Stop, ClientWorld.SetState, ClientWorld.floorStop, FloorWorld.Stop]
  refine ⟨?_, hs.1, hs.2, ?_⟩
  · simp [McpttOnNetworkFloorParticipant.Stop, stopIfRunning_not_running]
  · rw [hs.1]
    simp [McpttOnNetworkFloorParticipant.Stop, stopIfRunning_not_running]

end Stopping

/-! ## Theorems: the two release phases in the client call machine -/

section Release

/-- C8 (the code at the failing input): from S3, `ReleaseCall` followed by a
received BYE (colliding BYEs) brings the started machine back to S1 while the
floor machine has received `CallRelease1` only, never `CallRelease2`. -/
theorem C8_colliding_bye_skips_release2 (ops : FloorMachineOps) :
    ∃ w, clientRun ops ongoingCall [.ReleaseCall, .ReceiveCallPacket (byePacket 1)]
        = some w ∧
      w.machine.state = .S1 ∧ w.floorCalls = [.CallRelease1] ∧
      FloorCall.CallRelease2 ∉ w.floorCalls := by
  refine ⟨_, rfl, ?_, ?_, ?_⟩ <;>
    simp [ongoingCall, ClientWorld.S3_ReleaseCall, ClientWorld.S4_ReceiveBye,
      ClientWorld.SetState, ClientWorld.SendCallControlPacket,
      ClientWorld.floorCallRelease1]

/-- The sibling paths from S3 to S1 do complete both phases, in order: a received
BYE in S3, and `ReleaseCall` followed by a response. -/
theorem release_paths_complete_both_phases (ops : FloorMachineOps) :
    (∃ w, clientRun ops ongoingCall [.ReceiveCallPacket (byePacket 1)] = some w ∧
      w.machine.state = .S1 ∧ w.floorCalls = [.CallRelease1, .CallRelease2]) ∧
    (∃ w, clientRun ops ongoingCall
        [.ReleaseCall, .ReceiveCallPacket (responsePacket 1)] = some w ∧
      w.machine.state = .S1 ∧ w.floorCalls = [.CallRelease1, .CallRelease2]) := by
  constructor <;> refine ⟨_, rfl, ?_, ?_⟩ <;>
    simp [ongoingCall, ClientWorld.S3_ReleaseCall, ClientWorld.S4_ReceiveResponse,
      ClientWorld.S3_ReceiveBye, ClientWorld.SetState, ClientWorld.SendCallControlPacket,
      ClientWorld.floorCallRelease1, ClientWorld.floorCallRelease2, ClientWorld.notifyApp]

end Release

/-! ## Theorems: one floor holder -/

section Holder

open McpttOnNetworkFloorArbitrator

end Holder

/-! ## Theorems: the call-id allocator and the call map -/

section CallIds

open McpttServerApp

/-- The counter after `n` allocations, from a counter within the `uint16_t`
range. -/
theorem afterAllocations_callId (n : Nat) (app : McpttServerApp)
    (h : app.s_callId < 65536) :
    (afterAllocations n app).s_callId = (app.s_callId + n) % 65536 := by
  induction n generalizing app with
  | zero => simp [afterAllocations]; omega
  | succ n ih =>
    have h1 : (app.AllocateCallId.2).s_callId < 65536 := by
      simp only [AllocateCallId]; omega
    rw [afterAllocations, ih _ h1]
    simp only [AllocateCallId]
    omega

/-- The ids returned by `n` allocations, from a counter within the `uint16_t`
range. -/
theorem allocatedIds_eq (n : Nat) (app : McpttServerApp) (h : app.s_callId < 65536) :
    allocatedIds n app = (List.range n).map (fun i => (app.s_callId + i) % 65536) := by
  induction n generalizing app with
  | zero => simp [allocatedIds]
  | succ n ih =>
    have h1 : (app.AllocateCallId.2).s_callId < 65536 := by
      simp only [AllocateCallId]; omega
    rw [allocatedIds, ih _ h1, List.range_succ_eq_map]
    simp only [AllocateCallId, List.map_cons, List.map_map, List.cons.injEq]
    refine ⟨by omega, ?_⟩
    apply List.map_congr_left
    intro i _
    simp only [Function.comp]
    omega

/-- C20: `AllocateCallId` returns the current counter value and advances the
counter by one modulo 2^16; the allocation made after `k` earlier ones on a
fresh counter returns `k mod 65536`; and the 65536 allocations that follow any
number `m` of earlier ones return pairwise distinct ids. -/
theorem C20_allocateCallId_increments (app : McpttServerApp) (k m : Nat) :
    app.AllocateCallId =
      (app.s_callId, { app with s_callId := (app.s_callId + 1) % 65536 }) ∧
    (afterAllocations k {}).AllocateCallId.1 = k % 65536 ∧
    allocatedIds k {} = (List.range k).map (fun i => i % 65536) ∧
    (allocatedIds 65536 (afterAllocations m {})).Nodup := by
  have h0 : ({} : McpttServerApp).s_callId < 65536 := by decide
  refine ⟨by simp [AllocateCallId], ?_, ?_, ?_⟩
  · have := afterAllocations_callId k {} h0
    simp only [AllocateCallId, this]
    simp
  · rw [allocatedIds_eq k {} h0]
    simp
  · have hm := afterAllocations_callId m {} h0
    have hlt : (afterAllocations m {}).s_callId < 65536 := by rw [hm]; omega
    rw [allocatedIds_eq _ _ hlt]
    apply List.Nodup.map_on _ (List.nodup_range _)
    intro i hi j hj hij
    rw [List.mem_range] at hi hj
    omega

/-- C11 (the code at the failing input): `AddCall` aborts exactly when the call
id is greater than `s_callId`, so a call whose id equals `s_callId`, the next id
to be allocated, is inserted: on a fresh application, where no id has been
allocated, the call with id 0; after three allocations, which returned 0, 1 and
2, the call with id 3. -/
theorem C11_addCall_accepts_next_id :
    (∀ (app : McpttServerApp) (call : McpttServerCall),
      app.AddCall call = none ↔ call.callId > app.s_callId) ∧
    allocatedIds 0 {} = [] ∧
    (∃ app, AddCall {} { callId := 0 } = some app ∧ app.calls.map Prod.fst = [0]) ∧
    allocatedIds 3 {} = [0, 1, 2] ∧
    (∃ app, AddCall (afterAllocations 3 {}) { callId := 3 } = some app ∧
      app.calls.map Prod.fst = [3]) := by
  refine ⟨?_, by decide, ⟨_, rfl, by decide⟩, by decide, ⟨_, rfl, by decide⟩⟩
  intro app call
  unfold AddCall
  split <;> simp_all

end CallIds

/-! ## Theorems: addressing the roster -/

section Roster

open McpttOnNetworkFloorArbitrator

/-- On a roster without the SSRC, the lookup ends with the null pointer and the
`SendTo` loop delivers nothing. -/
theorem loops_absent (txCbSet : Bool) (msg : McpttFloorMsg) (ssrc : Nat)
    (l : List TowardsParticipant) (h : ∀ p ∈ l, p.storedSsrc ≠ ssrc) :
    getParticipantLoop ssrc l = .null ∧ sendToLoop txCbSet msg ssrc l = (l, []) := by
  induction l with
  | nil => simp [getParticipantLoop, sendToLoop]
  | cons p rest ih =>
    have hp : p.storedSsrc ≠ ssrc := h p (List.mem_cons_self _ _)
    have hr := ih (fun q hq => h q (List.mem_cons_of_mem _ hq))
    simp [getParticipantLoop, sendToLoop, hp, hr.1, hr.2]

/-- On a roster with the SSRC, the lookup and the `SendTo` loop stop at the same
proxy, the first whose stored SSRC is the one addressed. -/
theorem loops_present (txCbSet : Bool) (msg : McpttFloorMsg) (ssrc : Nat)
    (l : List TowardsParticipant) (h : ∃ p ∈ l, p.storedSsrc = ssrc) :
    ∃ pre p post, l = pre ++ p :: post ∧ (∀ q ∈ pre, q.storedSsrc ≠ ssrc) ∧
      p.storedSsrc = ssrc ∧ getParticipantLoop ssrc l = .obj p ∧
      sendToLoop txCbSet msg ssrc l = (pre ++ p.Send msg :: post, txCbOnce txCbSet msg) := by
  induction l with
  | nil => simp at h
  | cons x rest ih =>
    by_cases hx : x.storedSsrc = ssrc
    · exact ⟨[], x, rest, by simp, by simp, hx, by simp [getParticipantLoop, hx],
        by simp [sendToLoop, hx]⟩
    · have hrest : ∃ p ∈ rest, p.storedSsrc = ssrc := by
        obtain ⟨p, hp, hps⟩ := h
        rcases List.mem_cons.1 hp with rfl | hp
        · exact absurd hps hx
        · exact ⟨p, hp, hps⟩
      obtain ⟨pre, p, post, hl, hpre, hp, hg, hs⟩ := ih hrest
      refine ⟨x :: pre, p, post, by simp [hl], ?_, hp, ?_, ?_⟩
      · intro q hq
        rcases List.mem_cons.1 hq with rfl | hq
        · exact hx
        · exact hpre q hq
      · simp [getParticipantLoop, hx, hg]
      · simp [sendToLoop, hx, hs]

/-- The `SendToAll` loop in closed form. -/
theorem sendToAllLoop_eq (txCbSet : Bool) (msg : McpttFloorMsg)
    (l : List TowardsParticipant) :
    sendToAllLoop txCbSet msg l =
      (l.map (fun p => p.Send msg),
        if txCbSet then List.replicate l.length msg else []) := by
  induction l with
  | nil => simp [sendToAllLoop]
  | cons p rest ih =>
    cases txCbSet <;> simp [sendToAllLoop, ih, txCbOnce, List.replicate_succ]

/-- The `SendToAllExcept` loop in closed form. -/
theorem sendToAllExceptLoop_eq (txCbSet : Bool) (msg : McpttFloorMsg) (ssrc : Nat)
    (l : List TowardsParticipant) :
    sendToAllExceptLoop txCbSet msg ssrc l =
      (l.map (fun p => if p.storedSsrc ≠ ssrc then p.Send msg else p),
        if txCbSet then
          List.replicate (l.filter (fun p => p.storedSsrc != ssrc)).length msg
        else []) := by
  induction l with
  | nil => simp [sendToAllExceptLoop]
  | cons p rest ih =>
    by_cases hp : p.storedSsrc = ssrc <;>
      cases txCbSet <;>
        simp [sendToAllExceptLoop, ih, txCbOnce, hp, List.replicate_succ]

/-- C12 (as stated, refuted): on a roster whose only proxy stores SSRC 1, looking
up SSRC 5 returns the null pointer, and sending to SSRC 5 returns with the
arbitrator as it was, nothing delivered and no callback invoked; neither
aborts. -/
theorem C12_counterexample :
    GetParticipant { participants := [{ storedSsrc := 1 }], txCbSet := true } 5 = .null ∧
    SendTo { participants := [{ storedSsrc := 1 }], txCbSet := true } { ssrc := 9 } 5 =
      { participants := [{ storedSsrc := 1 }], txCbSet := true } := by
  decide

/-- C12 (amended): for every roster and every SSRC that no proxy of the roster
stores, `GetParticipant` returns the null pointer and `SendTo` returns with the
arbitrator unchanged: no proxy is sent the message and the tx callback is not
invoked. -/
theorem C12_absent_participant (a : McpttOnNetworkFloorArbitrator) (msg : McpttFloorMsg)
    (ssrc : Nat) (h : ∀ p ∈ a.participants, p.storedSsrc ≠ ssrc) :
    a.GetParticipant ssrc = .null ∧ a.SendTo msg ssrc = a := by
  have hl := loops_absent a.txCbSet msg ssrc a.participants h
  simp [GetParticipant, SendTo, hl.1, hl.2]

/-- C12 (amended), at an instance: the roster with proxies 1 and 2, SSRC 5. -/
theorem C12_absent_participant_witness :
    GetParticipant { participants := [{ storedSsrc := 1 }, { storedSsrc := 2 }] } 5
      = .null ∧
    SendTo { participants := [{ storedSsrc := 1 }, { storedSsrc := 2 }] }
        { subtype := .Idle } 5 =
      { participants := [{ storedSsrc := 1 }, { storedSsrc := 2 }] } :=
  C12_absent_participant { participants := [{ storedSsrc := 1 }, { storedSsrc := 2 }] }
    { subtype := .Idle } 5 (by decide)

/-- C13: for every roster and SSRC present in it, `SendTo` delivers the message
to one proxy, the first in roster order whose stored SSRC is the one addressed,
which is the proxy `GetParticipant` returns, and leaves the others as they were;
`SendToAllExcept` delivers to the proxies whose stored SSRC differs and to no
other; `SendToAll` delivers to every proxy; and the tx callback, when one is
set, is invoked once per delivery (never when none is set). -/
theorem C13_send_addressing (a : McpttOnNetworkFloorArbitrator) (msg : McpttFloorMsg)
    (ssrc : Nat) (h : ∃ p ∈ a.participants, p.storedSsrc = ssrc) :
    (∃ pre p post, a.participants = pre ++ p :: post ∧
      (∀ q ∈ pre, q.storedSsrc ≠ ssrc) ∧ p.storedSsrc = ssrc ∧
      a.GetParticipant ssrc = .obj p ∧
      (a.SendTo msg ssrc).participants = pre ++ p.Send msg :: post ∧
      (a.SendTo msg ssrc).txCbCalls = a.txCbCalls ++ (if a.txCbSet then [msg] else [])) ∧
    ((a.SendToAllExcept msg ssrc).participants =
        a.participants.map (fun p => if p.storedSsrc ≠ ssrc then p.Send msg else p) ∧
      (a.SendToAllExcept msg ssrc).txCbCalls = a.txCbCalls ++
        (if a.txCbSet then
          List.replicate (a.participants.filter (fun p => p.storedSsrc != ssrc)).length msg
        else [])) ∧
    ((a.SendToAll msg).participants = a.participants.map (fun p => p.Send msg) ∧
      (a.SendToAll msg).txCbCalls = a.txCbCalls ++
        (if a.txCbSet then List.replicate a.participants.length msg else [])) := by
  obtain ⟨pre, p, post, hl, hpre, hp, hg, hs⟩ :=
    loops_present a.txCbSet msg ssrc a.participants h
  refine ⟨⟨pre, p, post, hl, hpre, hp, hg, ?_, ?_⟩, ?_, ?_⟩
  · simp [SendTo, hs]
  · simp [SendTo, hs, txCbOnce]
  · simp [SendToAllExcept, sendToAllExceptLoop_eq]
  · simp [SendToAll, sendToAllLoop_eq]

/-- C13, at an instance: the roster with proxies 1, 2 and a second proxy storing
SSRC 2, a tx callback set, and a message for SSRC 2. Only the first proxy
storing 2 is sent the message and the callback is invoked once. -/
theorem C13_send_addressing_witness :
    (SendTo { participants := [{ storedSsrc := 1 }, { storedSsrc := 2 },
                               { storedSsrc := 2, storedPriority := 7 }],
              txCbSet := true } { subtype := .Granted } 2).participants.map
        (fun p => p.sent.length) = [0, 1, 0] ∧
    (SendTo { participants := [{ storedSsrc := 1 }, { storedSsrc := 2 },
                               { storedSsrc := 2, storedPriority := 7 }],
              txCbSet := true } { subtype := .Granted } 2).txCbCalls =
        [{ subtype := .Granted }] ∧
    (SendToAll { participants := [{ storedSsrc := 1 }, { storedSsrc := 2 },
                                  { storedSsrc := 2, storedPriority := 7 }],
                 txCbSet := true } { subtype := .Granted }).txCbCalls.length = 3 := by
  have h := C13_send_addressing
    { participants := [{ storedSsrc := 1 }, { storedSsrc := 2 },
                       { storedSsrc := 2, storedPriority := 7 }],
      txCbSet := true } { subtype := .Granted } 2 ⟨{ storedSsrc := 2 }, by decide, rfl⟩
  refine ⟨by decide, by decide, ?_⟩
  rw [h.2.2.2]
  decide

end Roster

/-! ## Theorems: the indicator table -/

section IndicatorTable

/-- C18: `GetIndicator` is the one table in the arbitrator and in the
participant: the class bit of the call type (Normal for BASIC_GROUP and PRIVATE,
Broadcast for BROADCAST_GROUP, Imminent for IMMINENT_PERIL_GROUP, Emergency for
EMERGENCY_GROUP and EMERGENCY_PRIVATE) and no other class bit, so exactly one
for each of the six call types, with the dual-floor bit exactly in dual-floor
mode; the two functions agree on equal call type and mode. -/
theorem C18_getIndicator_table (a : McpttOnNetworkFloorArbitrator)
    (p : McpttOnNetworkFloorParticipant) :
    a.GetIndicator = specIndicator a.callTypeId a.IsDualFloor ∧
    p.GetIndicator = specIndicator p.callTypeId p.IsDualFloor ∧
    callTypeBits a.GetIndicator = (specClassOf a.callTypeId).toList.map CallClass.bit ∧
    callTypeBits p.GetIndicator = (specClassOf p.callTypeId).toList.map CallClass.bit ∧
    indicClass a.GetIndicator = specClassOf a.callTypeId ∧
    indicClass p.GetIndicator = specClassOf p.callTypeId ∧
    a.GetIndicator.IsIndicated .DUAL_FLOOR = a.IsDualFloor ∧
    p.GetIndicator.IsIndicated .DUAL_FLOOR = p.IsDualFloor ∧
    (a.callTypeId = p.callTypeId ∧ a.IsDualFloor = p.IsDualFloor →
      a.GetIndicator = p.GetIndicator) := by
  have ha : a.GetIndicator = specIndicator a.callTypeId a.IsDualFloor := by
    cases hct : a.callTypeId <;>
      rcases Bool.eq_false_or_eq_true a.dualControlStarted with hd | hd <;>
        simp [McpttOnNetworkFloorArbitrator.GetIndicator,
          McpttOnNetworkFloorArbitrator.IsDualFloor, specIndicator, specClassOf,
          CallClass.bit, McpttFloorMsgFieldIndic.Indicate, hct, hd]
  have hp : p.GetIndicator = specIndicator p.callTypeId p.IsDualFloor := by
    cases hct : p.callTypeId <;>
      rcases Bool.eq_false_or_eq_true p.dualFloor with hd | hd <;>
        simp [McpttOnNetworkFloorParticipant.GetIndicator,
          McpttOnNetworkFloorParticipant.GetCallTypeId,
          McpttOnNetworkFloorParticipant.IsDualFloor, specIndicator, specClassOf,
          CallClass.bit, McpttFloorMsgFieldIndic.Indicate, hct, hd]
  have hbits : ∀ (ct : CallTypeId) (d : Bool),
      callTypeBits (specIndicator ct d) = (specClassOf ct).toList.map CallClass.bit ∧
      indicClass (specIndicator ct d) = specClassOf ct ∧
      (specIndicator ct d).IsIndicated .DUAL_FLOOR = d := by
    intro ct d
    cases ct <;> cases d <;> decide
  refine ⟨ha, hp, ?_, ?_, ?_, ?_, ?_, ?_, ?_⟩
  · rw [ha]; exact (hbits _ _).1
  · rw [hp]; exact (hbits _ _).1
  · rw [ha]; exact (hbits _ _).2.1
  · rw [hp]; exact (hbits _ _).2.1
  · rw [ha]; exact (hbits _ _).2.2
  · rw [hp]; exact (hbits _ _).2.2
  · rintro ⟨h1, h2⟩
    rw [ha, hp, h1, h2]

/-- C18, at an instance: an arbitrator and a participant of an EMERGENCY_PRIVATE
call, both in dual-floor mode, build the same indicator, whose only class bit is
the Emergency one. -/
theorem C18_getIndicator_table_witness :
    McpttOnNetworkFloorArbitrator.GetIndicator
        { callTypeId := .EMERGENCY_PRIVATE, dualControlStarted := true } =
      McpttOnNetworkFloorParticipant.GetIndicator
        { callTypeId := .EMERGENCY_PRIVATE, dualFloor := true } ∧
    callTypeBits (McpttOnNetworkFloorArbitrator.GetIndicator
        { callTypeId := .EMERGENCY_PRIVATE, dualControlStarted := true }) =
      [.EMERGENCY_CALL] :=
  have h := C18_getIndicator_table
    { callTypeId := .EMERGENCY_PRIVATE, dualControlStarted := true }
    { callTypeId := .EMERGENCY_PRIVATE, dualFloor := true }
  ⟨h.2.2.2.2.2.2.2.2 ⟨rfl, rfl⟩, h.2.2.1⟩

end IndicatorTable

/-! ## Theorems: changing state -/

section ChangingState

/-- C15: for the arbitrator and for the participant, `ChangeState` to a state
whose id differs from the current one is `Unselected` on the old state, then the
installation of the new state, then `Selected` on the new state, then one firing
of the state-change trace, appended last, that carries the old state as
fromState and the new state as toState; `ChangeState` to the current state
leaves the machine unchanged, trace included. The installation, `SetState`,
makes the new state the current one and changes nothing else, so `Selected`
runs on a machine in the new state, and the machine ends in the new state
whenever `Selected` keeps the state. -/
theorem C15_changeState (ha : ArbitratorStateHooks) (hp : ParticipantStateHooks)
    (a : McpttOnNetworkFloorArbitrator) (s : ArbitratorStateId)
    (w : FloorWorld) (t : ParticipantStateId) :
    (a.state ≠ s →
      a.ChangeState ha s =
        { ha.Selected s ((ha.Unselected a.state a).SetState s) with
          stateChangeTrace :=
            (ha.Selected s ((ha.Unselected a.state a).SetState s)).stateChangeTrace ++
              [{ txSsrc := (ha.Selected s ((ha.Unselected a.state a).SetState s)).txSsrc,
                 callId := (ha.Selected s ((ha.Unselected a.state a).SetState s)).callId,
                 fromState := a.state, toState := s }] }) ∧
    (a.state = s → a.ChangeState ha s = a) ∧
    (w.machine.state ≠ t →
      w.ChangeState hp t =
        { hp.Selected t ((hp.Unselected w.machine.state w).SetState t) with
          stateChangeTrace :=
            (hp.Selected t ((hp.Unselected w.machine.state w).SetState t)).stateChangeTrace ++
              [{ userId := (hp.Selected t ((hp.Unselected w.machine.state w).SetState t)).userId,
                 callId := (hp.Selected t ((hp.Unselected w.machine.state w).SetState t)).callId,
                 fromState := w.machine.state, toState := t }] }) ∧
    (w.machine.state = t → w.ChangeState hp t = w) ∧
    (∀ x : McpttOnNetworkFloorArbitrator,
      (x.SetState s).state = s ∧ (x.SetState s).GetStateId = s ∧
      x.SetState s = { x with state := s }) ∧
    (∀ x : FloorWorld,
      (x.SetState t).machine.state = t ∧ (x.SetState t).GetStateId = t ∧
      x.SetState t = { x with machine := { x.machine with state := t } }) ∧
    (a.state ≠ s → (∀ x, (ha.Selected s x).state = x.state) →
      (a.ChangeState ha s).state = s) ∧
    (w.machine.state ≠ t → (∀ x, (hp.Selected t x).machine.state = x.machine.state) →
      (w.ChangeState hp t).machine.state = t) := by
  refine ⟨?_, ?_, ?_, ?_, ?_, ?_, ?_, ?_⟩
  · intro h
    simp [McpttOnNetworkFloorArbitrator.ChangeState,
      McpttOnNetworkFloorArbitrator.GetStateId, h]
  · intro h
    simp [McpttOnNetworkFloorArbitrator.ChangeState,
      McpttOnNetworkFloorArbitrator.GetStateId, h]
  · intro h
    simp [FloorWorld.ChangeState, FloorWorld.GetStateId, h]
  · intro h
    simp [FloorWorld.ChangeState, FloorWorld.GetStateId, h]
  · intro x
    exact ⟨rfl, rfl, rfl⟩
  · intro x
    exact ⟨rfl, rfl, rfl⟩
  · intro h hsel
    simp [McpttOnNetworkFloorArbitrator.ChangeState,
      McpttOnNetworkFloorArbitrator.GetStateId, h, hsel,
      McpttOnNetworkFloorArbitrator.SetState]
  · intro h hsel
    simp [FloorWorld.ChangeState, FloorWorld.GetStateId, h, hsel, FloorWorld.SetState]

/-- C15, at an instance: with hooks that do nothing, an arbitrator of call 4
going from Start-stop to Idle and a participant of user 8 going from Idle to
Pending-Request each end in the new state with one trace entry; a change to the
current state does nothing. -/
theorem C15_changeState_witness :
    (McpttOnNetworkFloorArbitrator.ChangeState quietArbitratorHooks
        { callId := 4, txSsrc := 2 } .Idle).state = .Idle ∧
    (McpttOnNetworkFloorArbitrator.ChangeState quietArbitratorHooks
        { callId := 4, txSsrc := 2 } .Idle).stateChangeTrace =
      [{ txSsrc := 2, callId := 4, fromState := .StartStop, toState := .Idle }] ∧
    McpttOnNetworkFloorArbitrator.ChangeState quietArbitratorHooks
        { callId := 4, txSsrc := 2 } .StartStop = { callId := 4, txSsrc := 2 } ∧
    (FloorWorld.ChangeState quietParticipantHooks
        { machine := { state := .Idle }, userId := 8 } .PendingRequest).stateChangeTrace =
      [{ userId := 8, callId := 0, fromState := .Idle, toState := .PendingRequest }] ∧
    FloorWorld.ChangeState quietParticipantHooks
        { machine := { state := .Idle }, userId := 8 } .Idle =
      { machine := { state := .Idle }, userId := 8 } ∧
    (FloorWorld.ChangeState quietParticipantHooks
        { machine := { state := .Idle }, userId := 8 } .PendingRequest).machine.state =
      .PendingRequest ∧
    (FloorWorld.ChangeState quietParticipantHooks
        { machine := { state := .Idle }, userId := 8 } .PendingRequest).GetStateId =
      .PendingRequest := by
  have h := C15_changeState quietArbitratorHooks quietParticipantHooks
    { callId := 4, txSsrc := 2 } .Idle { machine := { state := .Idle }, userId := 8 }
    .PendingRequest
  have h1 := h.1 (by decide)
  have h3 := h.2.2.1 (by decide)
  have h0 := (C15_changeState quietArbitratorHooks quietParticipantHooks
    { callId := 4, txSsrc := 2 } .StartStop { machine := { state := .Idle }, userId := 8 }
    .Idle)
  have h8 := h.2.2.2.2.2.2.2 (by decide) (fun _ => rfl)
  refine ⟨?_, ?_, h0.2.1 rfl, ?_, h0.2.2.2.1 rfl, h8, h8⟩
  · rw [h1]; rfl
  · rw [h1]; rfl
  · rw [h3]; rfl

/-- C16 (the code at the failing input): `ChangeState` never invokes the
state-change callback. Its invocations after `ChangeState` are those the state
hooks made, whatever the hooks; with a callback set and hooks that do nothing,
an arbitrator going from Start-stop to Idle and a participant going from
Start-stop to Idle change state and fire the trace, and the callback has not
been invoked, whereas `SetState` of a started client call machine with a
callback set invokes it once with the old and the new state. -/
theorem C16_changeState_never_invokes_callback :
    (∀ (ha : ArbitratorStateHooks) (a : McpttOnNetworkFloorArbitrator)
        (s : ArbitratorStateId),
      (a.ChangeState ha s).stateChangeCbCalls =
        if a.state ≠ s then
          (ha.Selected s ((ha.Unselected a.state a).SetState s)).stateChangeCbCalls
        else a.stateChangeCbCalls) ∧
    (∀ (hp : ParticipantStateHooks) (w : FloorWorld) (t : ParticipantStateId),
      (w.ChangeState hp t).stateChangeCbCalls =
        if w.machine.state ≠ t then
          (hp.Selected t ((hp.Unselected w.machine.state w).SetState t)).stateChangeCbCalls
        else w.stateChangeCbCalls) ∧
    ((McpttOnNetworkFloorArbitrator.SetStateChangeCb {} true).ChangeState
        quietArbitratorHooks .Idle).state = .Idle ∧
    ((McpttOnNetworkFloorArbitrator.SetStateChangeCb {} true).ChangeState
        quietArbitratorHooks .Idle).stateChangeTrace.length = 1 ∧
    ((McpttOnNetworkFloorArbitrator.SetStateChangeCb {} true).ChangeState
        quietArbitratorHooks .Idle).stateChangeCbCalls = [] ∧
    ((FloorWorld.SetStateChangeCb {} true).ChangeState
        quietParticipantHooks .Idle).machine.state = .Idle ∧
    ((FloorWorld.SetStateChangeCb {} true).ChangeState
        quietParticipantHooks .Idle).stateChangeTrace.length = 1 ∧
    ((FloorWorld.SetStateChangeCb {} true).ChangeState
        quietParticipantHooks .Idle).stateChangeCbCalls = [] ∧
    (ClientWorld.SetState
        { machine := { state := .S1, started := true, stateChangeCbSet := true } }
        .S2).stateChangeCbCalls = [(.S1, .S2)] := by
  refine ⟨?_, ?_, by decide, by decide, by decide, by decide, by decide, by decide,
    by decide⟩
  · intro ha a s
    by_cases h : a.state = s <;>
      simp [McpttOnNetworkFloorArbitrator.ChangeState,
        McpttOnNetworkFloorArbitrator.GetStateId, h]
  · intro hp w t
    by_cases h : w.machine.state = t <;>
      simp [FloorWorld.ChangeState, FloorWorld.GetStateId, h]

end ChangingState

/-! ## Theorems: the client call object -/

section CallObject

/-- C17: `ReceiveFloorPkt` depends on the packet through the subtype of its top
header alone for the choice of the message class. For the subtype of Request,
Granted, Deny, Release, Idle, Taken, Revoke, QueuePositionRequest,
QueuePositionInfo or Ack, and for the ACK-required subtype of Granted, Deny,
Release, Idle, Taken or QueuePositionInfo, the top header is removed from the
packet as a message of that class and passed to `Receive`, which hands it once
to the floor machine (and once to the rx callback when one is set); for every
other subtype value it aborts. -/
theorem C17_receiveFloorPkt_dispatch (c : McpttCall) (pkt : FloorPacket) :
    c.ReceiveFloorPkt pkt =
      (pkt.top.subtype.kind).map (fun k => (c.Receive k pkt.top, pkt.rest)) ∧
    (∀ k, (c.Receive k pkt.top).floorMachineReceived =
        c.floorMachineReceived ++ [(k, pkt.top)] ∧
      (c.Receive k pkt.top).rxCbCalls =
        c.rxCbCalls ++ (if c.rxCbSet then [.floorMsg k pkt.top] else [])) ∧
    (pkt.top.subtype.kind = none ↔ ∃ v, pkt.top.subtype = .other v) ∧
    ((∃ v, pkt.top.subtype = .other v) → c.ReceiveFloorPkt pkt = none) := by
  have h1 : c.ReceiveFloorPkt pkt =
      (pkt.top.subtype.kind).map (fun k => (c.Receive k pkt.top, pkt.rest)) := by
    unfold McpttCall.ReceiveFloorPkt
    cases hs : pkt.top.subtype <;> simp [FloorSubtype.kind]
  have h3 : pkt.top.subtype.kind = none ↔ ∃ v, pkt.top.subtype = .other v := by
    cases hs : pkt.top.subtype <;> simp [FloorSubtype.kind]
  refine ⟨h1, ?_, h3, ?_⟩
  · intro k
    rcases Bool.eq_false_or_eq_true c.rxCbSet with hr | hr <;>
      simp [McpttCall.Receive, hr]
  · intro hv
    rw [h1, h3.2 hv]
    rfl

/-- C17, at instances: an ACK-required Granted packet is handed to the floor
machine once as a Granted message and its header is taken off; a packet with
another subtype value makes the call abort. -/
theorem C17_receiveFloorPkt_dispatch_witness :
    McpttCall.ReceiveFloorPkt {} { top := { subtype := .GrantedAck, ssrc := 3 },
                                   rest := [{ subtype := .Idle }] } =
      some ({ floorMachineReceived := [(.Granted, { subtype := .GrantedAck, ssrc := 3 })] },
        [{ subtype := .Idle }]) ∧
    McpttCall.ReceiveFloorPkt {} { top := { subtype := .other 22 } } = none := by
  have h := C17_receiveFloorPkt_dispatch {} { top := { subtype := .other 22 } }
  exact ⟨by decide, h.2.2.2 ⟨22, rfl⟩⟩

/-- C14: `MediaReady` stamps the message with the user id of the owning
application (`GetTxSsrc`), whatever SSRC it carried, before the current state
handles it; with state handlers that leave the SSRC of the message alone, the
message carries that user id after `MediaReady`, and `McpttCall::Send` of a
media message hands the media channel a packet whose header is the caller's
message stamped this way, the caller's message being what it was. -/
theorem C14_mediaReady_stamps (hooks : ParticipantStateHooks) (w : FloorWorld)
    (c : McpttCall) (msg : McpttMediaMsg)
    (hkeep : ∀ s w1 m, (hooks.MediaReady s w1 m).2.ssrc = m.ssrc) :
    w.MediaReady hooks msg =
      hooks.MediaReady w.machine.state w { msg with ssrc := w.userId } ∧
    (w.MediaReady hooks msg).2.ssrc = w.GetTxSsrc ∧
    (c.SendMedia hooks msg).2 = msg ∧
    (c.SendMedia hooks msg).1.mediaChanSent =
      c.mediaChanSent ++ [(c.floor.MediaReady hooks msg).2] ∧
    (c.floor.MediaReady hooks msg).2.ssrc = c.floor.userId := by
  have h1 : ∀ w0 : FloorWorld, (w0.MediaReady hooks msg).2.ssrc = w0.userId := by
    intro w0
    simp [FloorWorld.MediaReady, McpttMediaMsg.SetSsrc, FloorWorld.GetTxSsrc, hkeep]
  refine ⟨rfl, h1 w, rfl, ?_, h1 c.floor⟩
  rcases Bool.eq_false_or_eq_true c.txCbSet with ht | ht <;>
    simp [McpttCall.SendMedia, ht]

/-- C14, at an instance: user 8 sends a media message that carried SSRC 99. -/
theorem C14_mediaReady_stamps_witness :
    (FloorWorld.MediaReady quietParticipantHooks { userId := 8 }
        { ssrc := 99, content := [1, 2] }).2 = { ssrc := 8, content := [1, 2] } ∧
    (McpttCall.SendMedia quietParticipantHooks { floor := { userId := 8 } }
        { ssrc := 99, content := [1, 2] }).2 = { ssrc := 99, content := [1, 2] } ∧
    (McpttCall.SendMedia quietParticipantHooks { floor := { userId := 8 } }
        { ssrc := 99, content := [1, 2] }).1.mediaChanSent =
      [{ ssrc := 8, content := [1, 2] }] := by
  have h := C14_mediaReady_stamps quietParticipantHooks { userId := 8 }
    { floor := { userId := 8 } } { ssrc := 99, content := [1, 2] } (fun _ _ _ => rfl)
  refine ⟨by decide, h.2.2.1, ?_⟩
  rw [h.2.2.2.1]
  decide

end CallObject

/-! ## Theorems: unexpected events in the client call machine -/

section Unexpected

/-- C19: in the client call machine a BYE, a response and `ReleaseCall` in S1,
`InitiateCall` in S2, S3 and S4, an INVITE and a response in S3, and an INVITE
and `ReleaseCall` in S4 leave everything as it was: the state is unchanged, no
call-control packet is sent and nothing is invoked on the floor machine. The
packets are packets for the call of the machine. -/
theorem C19_unexpected_events_ignored (ops : FloorMachineOps) (w : ClientWorld)
    (pkt : CallPacket) (hid : pkt.sip.callId = w.machine.callId) :
    (w.machine.state = .S1 →
      (pkt.sip.messageType = .SIP_REQUEST → pkt.sip.method = .BYE →
        w.ReceiveCallPacket ops pkt = some w) ∧
      (pkt.sip.messageType = .SIP_RESPONSE → w.ReceiveCallPacket ops pkt = some w) ∧
      w.ReleaseCall ops = some w) ∧
    (w.machine.state ≠ .S1 → w.InitiateCall ops = some w) ∧
    (w.machine.state = .S3 →
      (pkt.sip.messageType = .SIP_REQUEST → pkt.sip.method = .INVITE →
        w.ReceiveCallPacket ops pkt = some w) ∧
      (pkt.sip.messageType = .SIP_RESPONSE → w.ReceiveCallPacket ops pkt = some w)) ∧
    (w.machine.state = .S4 →
      (pkt.sip.messageType = .SIP_REQUEST → pkt.sip.method = .INVITE →
        w.ReceiveCallPacket ops pkt = some w) ∧
      w.ReleaseCall ops = some w) := by
  refine ⟨?_, ?_, ?_, ?_⟩
  · intro hs
    refine ⟨?_, ?_, ?_⟩
    · intro ht hm
      simp [ClientWorld.ReceiveCallPacket, ClientWorld.stateReceiveBye, hid, ht, hm, hs]
    · intro ht
      simp [ClientWorld.ReceiveCallPacket, ClientWorld.stateReceiveResponse, hid, ht, hs]
    · simp [ClientWorld.ReleaseCall, ClientWorld.stateReleaseCall, hs]
  · intro hs
    simp [ClientWorld.InitiateCall, hs]
  · intro hs
    refine ⟨?_, ?_⟩
    · intro ht hm
      simp [ClientWorld.ReceiveCallPacket, ClientWorld.stateReceiveInvite, hid, ht, hm, hs]
    · intro ht
      simp [ClientWorld.ReceiveCallPacket, ClientWorld.stateReceiveResponse, hid, ht, hs]
  · intro hs
    refine ⟨?_, ?_⟩
    · intro ht hm
      simp [ClientWorld.ReceiveCallPacket, ClientWorld.stateReceiveInvite, hid, ht, hm, hs]
    · simp [ClientWorld.ReleaseCall, ClientWorld.stateReleaseCall, hs]

/-- C19, at instances: the started machine in S3 on call 1 ignores an INVITE and
`InitiateCall`. -/
theorem C19_unexpected_events_ignored_witness :
    ongoingCall.ReceiveCallPacket quietFloorOps (invitePacket 1) = some ongoingCall ∧
    ongoingCall.InitiateCall quietFloorOps = some ongoingCall :=
  have h := C19_unexpected_events_ignored quietFloorOps ongoingCall (invitePacket 1) rfl
  ⟨(h.2.2.1 rfl).1 rfl rfl, h.2.1 (by decide)⟩

end Unexpected

/-! ## Theorems: the client call machine's states -/

section ClientMachine

open ClientWorld

/-- C21: for a started machine and any INVITE packet, `S2::ReceiveInvite` is the same
function of the world as `S1::ReceiveInvite`; run from S2 and from S1 on worlds that
differ in the state only, both make the same `CallEstablished (granted, priority)`
call on the floor participant with the packet's SDP values, leave it in the same
state, give the same session-initiate notification, send the same response,
which is a SIP response with status code 200 from the user to the group for the
call of the owner and carries nothing else, and end in state S3; and in state S2
the machine dispatches an INVITE to `S2::ReceiveInvite`. -/
theorem C21_invite_collision (ops : FloorMachineOps) (w : ClientWorld) (pkt : CallPacket)
    (hs : w.machine.started = true) :
    w.S2_ReceiveInvite ops pkt = w.S1_ReceiveInvite ops pkt ∧
    (w.inState .S2).stateReceiveInvite ops pkt
      = some ((w.inState .S2).S2_ReceiveInvite ops pkt) ∧
    (w.inState .S1).stateReceiveInvite ops pkt
      = some ((w.inState .S1).S1_ReceiveInvite ops pkt) ∧
    (let r2 := (w.inState .S2).S2_ReceiveInvite ops pkt
     let r1 := (w.inState .S1).S1_ReceiveInvite ops pkt
     r2.floorCalls = w.floorCalls ++ [.CallEstablished pkt.sdp.mcGranted pkt.sdp.mcPriority] ∧
     r1.floorCalls = r2.floorCalls ∧
     r1.floor = r2.floor ∧
     r2.appNotes = w.appNotes ++ [.SessionInitiateRequest] ∧
     r1.appNotes = r2.appNotes ∧
     r2.sentCallControl = w.sentCallControl ++
       [{ sip := { messageType := .SIP_RESPONSE, statusCode := 200, sipFrom := w.userId,
                   sipTo := w.machine.grpId, callId := w.ownerCallId } }] ∧
     r1.sentCallControl = r2.sentCallControl ∧
     r2.machine.state = .S3 ∧
     r1.machine.state = .S3 ∧
     (∀ resp ∈ r2.sentCallControl, resp ∉ w.sentCallControl →
       resp.sip.messageType = .SIP_RESPONSE ∧ resp.sip.statusCode = 200 ∧
       resp.sip.sipFrom = w.userId ∧ resp.sip.sipTo = w.machine.grpId ∧
       resp.sip.callId = w.ownerCallId)) := by
  refine ⟨rfl, rfl, rfl, ?_⟩
  rcases Bool.eq_false_or_eq_true w.machine.stateChangeCbSet with hc | hc <;>
    simp [inState, S1_ReceiveInvite, S2_ReceiveInvite, SetState, floorCallEstablished,
      notifyApp, SendCallControlPacket, response200, hs, hc] <;>
    intro resp hresp hnew <;>
    rcases hresp with hold | hresp <;>
    first
      | exact absurd hold hnew
      | (subst hresp; exact ⟨rfl, rfl, rfl, rfl, rfl⟩)

/-- Witness of C21: the started machine of `ongoingCall` and an INVITE for call 1;
the response sent from S2 is the 200 response of call 1. -/
theorem C21_invite_collision_witness :
    ongoingCall.machine.started = true ∧
    ((ongoingCall.inState .S2).S2_ReceiveInvite quietFloorOps (invitePacket 1)).sentCallControl
      = [{ sip := { messageType := .SIP_RESPONSE, statusCode := 200, sipFrom := 0,
                    sipTo := 0, callId := 1 } }] ∧
    ((ongoingCall.inState .S2).S2_ReceiveInvite quietFloorOps (invitePacket 1)).machine.state
      = .S3 :=
  ⟨by decide,
   (C21_invite_collision quietFloorOps ongoingCall (invitePacket 1)
     (by decide)).2.2.2.2.2.2.2.2.1,
   (C21_invite_collision quietFloorOps ongoingCall (invitePacket 1)
     (by decide)).2.2.2.2.2.2.2.2.2.2.1⟩

/-- C22: `Stop` clears the started flag before it calls `SetState` with S1, and
`SetState` does nothing on a machine that is not started: after `Stop` the machine
is not started and is in the state it was in before. The started machine of
`ongoingCall`, in state S3, is still in S3 after `Stop`, not in S1. -/
theorem C22_stop_keeps_state :
    (∀ w : ClientWorld,
      w.Stop.machine.state = w.machine.state ∧ w.Stop.machine.started = false) ∧
    ongoingCall.machine.started = true ∧
    ongoingCall.Stop.machine.state = .S3 ∧
    ongoingCall.Stop.machine.state ≠ .S1 ∧
    (ongoingCall.inState .S2).Stop.machine.state = .S2 ∧
    (ongoingCall.inState .S4).Stop.machine.state = .S4 := by
  refine ⟨?_, by decide, by decide, by decide, by decide, by decide⟩
  intro w
  simp [Stop, SetState, floorStop]

/-- C23: `SetState s` on a started machine whose state differs from `s` makes `s` the
state and reports the change, the callback first when it is set and then the trace,
both with the old and the new id; on a machine that is not started, or already in
`s`, it changes nothing. So the reports grow exactly when the machine is started
and `s` differs from the state, and a transition requested before `Start` is not
made by `Start` either. -/
theorem C23_setState (ops : FloorMachineOps) (w : ClientWorld) (s : ClientStateId) :
    (w.machine.started = true ∧ s ≠ w.machine.state →
      (w.SetState s).machine.state = s ∧
      (w.SetState s).stateReports = w.stateReports ++
        (if w.machine.stateChangeCbSet then [.callback w.machine.state s] else []) ++
        [.trace w.machine.state s] ∧
      (w.SetState s).stateChangeCbCalls = w.stateChangeCbCalls ++
        (if w.machine.stateChangeCbSet then [(w.machine.state, s)] else []) ∧
      (w.SetState s).stateChangeTrace = w.stateChangeTrace ++ [(w.machine.state, s)]) ∧
    (¬ (w.machine.started = true ∧ s ≠ w.machine.state) → w.SetState s = w) ∧
    ((w.SetState s).stateReports ≠ w.stateReports ↔
      (w.machine.started = true ∧ s ≠ w.machine.state)) ∧
    (w.machine.started = false →
      ((w.SetState s).Start ops).machine.state = w.machine.state ∧
      ((w.SetState s).Start ops).stateReports = w.stateReports) := by
  have hno : ¬ (w.machine.started = true ∧ s ≠ w.machine.state) → w.SetState s = w := by
    intro h
    simp only [SetState]
    rw [if_neg]
    simpa using h
  have hyes : w.machine.started = true ∧ s ≠ w.machine.state →
      (w.SetState s).machine.state = s ∧
      (w.SetState s).stateReports = w.stateReports ++
        (if w.machine.stateChangeCbSet then [.callback w.machine.state s] else []) ++
        [.trace w.machine.state s] ∧
      (w.SetState s).stateChangeCbCalls = w.stateChangeCbCalls ++
        (if w.machine.stateChangeCbSet then [(w.machine.state, s)] else []) ∧
      (w.SetState s).stateChangeTrace = w.stateChangeTrace ++ [(w.machine.state, s)] := by
    rintro ⟨h1, h2⟩
    rcases Bool.eq_false_or_eq_true w.machine.stateChangeCbSet with hc | hc <;>
      simp [SetState, h1, h2, hc]
  refine ⟨hyes, hno, ?_, ?_⟩
  · constructor
    · intro h
      by_contra hc
      exact h (by rw [hno hc])
    · intro h
      rw [(hyes h).2.1]
      simp
  · intro h
    have : w.SetState s = w := hno (by simp [h])
    rw [this]
    simp [Start, floorStart]

/-- Witness of C23: the started machine of `ongoingCall`, in S3, asked to move to S4. -/
theorem C23_setState_witness :
    (ongoingCall.machine.started = true ∧ ClientStateId.S4 ≠ ongoingCall.machine.state) ∧
    (ongoingCall.SetState .S4).machine.state = .S4 :=
  ⟨by decide, ((C23_setState quietFloorOps ongoingCall .S4).1 (by decide)).1⟩

/-- C24 fails in state S2: the machine answers that the call is ongoing, the state
object that it is not. -/
theorem C24_counterexample :
    (ongoingCall.inState .S2).IsCallOngoing = true ∧
    stateIsCallOngoing (ongoingCall.inState .S2).machine.state = false := by
  decide

/-- C24 amended: the machine's `IsCallOngoing` and the state object's agree in the
states S1 and S3; in S2 and S4 the machine answers true and the state object
false. -/
theorem C24_isCallOngoing_agreement (w : ClientWorld) :
    (w.machine.state = .S1 ∨ w.machine.state = .S3 →
      w.IsCallOngoing = stateIsCallOngoing w.machine.state) ∧
    (w.machine.state = .S2 ∨ w.machine.state = .S4 →
      w.IsCallOngoing = true ∧ stateIsCallOngoing w.machine.state = false) := by
  constructor
  · rintro (h | h) <;> simp [IsCallOngoing, stateIsCallOngoing, h]
  · rintro (h | h) <;> simp [IsCallOngoing, stateIsCallOngoing, h]

/-- Witness of C24 amended: the machine of `ongoingCall` is in S3, where both answer
true. -/
theorem C24_isCallOngoing_agreement_witness :
    (ongoingCall.machine.state = .S1 ∨ ongoingCall.machine.state = .S3) ∧
    ongoingCall.IsCallOngoing = stateIsCallOngoing ongoingCall.machine.state :=
  ⟨by decide, (C24_isCallOngoing_agreement ongoingCall).1 (by decide)⟩

end ClientMachine

/-! ## Theorems: monotonicity of the preemption test -/

section Monotone

open McpttOnNetworkFloorArbitrator

/-- C29: if a request preempts against an arbitrator, then a request with the same
indicator and a priority at least as high preempts against an arbitrator with
the same call indicator and a stored priority at most as high. -/
theorem C29_isPreemptive_monotone (a a2 : McpttOnNetworkFloorArbitrator)
    (msg msg2 : McpttFloorMsgRequest)
    (hreq : msg2.indicator = msg.indicator)
    (hcall : a2.GetIndicator = a.GetIndicator)
    (hp : msg.priority ≤ msg2.priority)
    (hs : a2.GetStoredPriority ≤ a.GetStoredPriority)
    (h : a.IsPreemptive msg = some true) :
    a2.IsPreemptive msg2 = some true := by
  unfold IsPreemptive at h ⊢
  rw [hreq, hcall]
  have key : msg.priority > a.GetStoredPriority → msg2.priority > a2.GetStoredPriority := by
    intro hk
    omega
  by_cases h1 : msg.priority > a.GetStoredPriority
  · have h2 := key h1
    simp only [h1, h2, if_true] at h ⊢
    exact h
  · simp only [h1, if_false] at h
    split_ifs at h ⊢ <;> simp_all

/-- Witness of C29: a Normal request of priority 5 preempts a Normal call held at
priority 3, so the request at priority 6 preempts it held at priority 2. -/
theorem C29_isPreemptive_monotone_witness :
    IsPreemptive { callTypeId := .BASIC_GROUP, storedPriority := 3 }
      { ssrc := 2, priority := 5, indicator := { normalCall := true } } = some true ∧
    IsPreemptive { callTypeId := .BASIC_GROUP, storedPriority := 2 }
      { ssrc := 2, priority := 6, indicator := { normalCall := true } } = some true :=
  ⟨by decide,
   C29_isPreemptive_monotone { callTypeId := .BASIC_GROUP, storedPriority := 3 }
     { callTypeId := .BASIC_GROUP, storedPriority := 2 }
     { ssrc := 2, priority := 5, indicator := { normalCall := true } }
     { ssrc := 2, priority := 6, indicator := { normalCall := true } }
     rfl (by decide) (by decide) (by decide) (by decide)⟩

end Monotone

/-! ## Theorems: dialog and transaction identifiers -/

section SipIds

open SipElement

/-- C28: `GetDialogId` gives the same identifier for the two orders of the URIs, keeps
the call id and puts the smaller URI second; `GetTransactionId` keeps the order, so
the two orders of distinct URIs give distinct transaction identifiers. -/
theorem C28_dialog_id_symmetric (c a b : Nat) :
    GetDialogId c a b = GetDialogId c b a ∧
    (GetDialogId c a b).1 = c ∧
    (GetDialogId c a b).2.1 ≤ (GetDialogId c a b).2.2 ∧
    GetTransactionId c a b = (c, a, b) ∧
    (a ≠ b → GetTransactionId c a b ≠ GetTransactionId c b a) := by
  refine ⟨?_, ?_, ?_, rfl, ?_⟩
  · simp only [GetDialogId]
    split_ifs with h1 h2 h2
    · omega
    · rfl
    · rfl
    · have : a = b := by omega
      rw [this]
  · simp only [GetDialogId]
    split_ifs <;> rfl
  · simp only [GetDialogId]
    split_ifs with h1
    · exact Nat.le_of_lt h1
    · exact Nat.le_of_not_lt h1
  · intro hab heq
    simp only [GetTransactionId, Prod.mk.injEq] at heq
    exact hab heq.2.1

/-- Witness of C28: the URIs 1 and 2 on call 7. -/
theorem C28_dialog_id_symmetric_witness :
    (1 : Nat) ≠ 2 ∧ GetTransactionId 7 1 2 ≠ GetTransactionId 7 2 1 :=
  ⟨by decide, (C28_dialog_id_symmetric 7 1 2).2.2.2.2 (by decide)⟩

end SipIds

/-! ## Theorems: the SIP element -/

section Sip

open SipElement

/-- C27: with the dialog in state PROCEEDING, `SendResponse` with status 200 changes
neither the state of the dialog nor that of the transaction, for every element,
dialog and transaction; a callee that receives an INVITE and sends 100 and then
200 ends with the dialog and the transaction in PROCEEDING, not CONFIRMED and
COMPLETED, whereas without the 100 it ends in CONFIRMED and COMPLETED, and a
caller that receives 100 and then 200 ends with the dialog in CONFIRMED. -/
theorem C27_sendResponse_200_in_proceeding :
    (∀ (e : SipElement) (d : Dialog) (t : Transaction) (p : SipPacket)
        (addr sipFrom sipTo callId cb : Nat),
      ∃ r,
        ((e.withDialog (GetDialogId callId sipFrom sipTo)
            { d with state := .PROCEEDING }).withTransaction
            (GetTransactionId callId sipFrom sipTo) t).SendResponse
          p addr 200 sipFrom sipTo callId cb = some r ∧
        r.dialogState (GetDialogId callId sipFrom sipTo) = some .PROCEEDING ∧
        r.transactionState (GetTransactionId callId sipFrom sipTo) = some t.state) ∧
    (((sipEndpoint.Receive (inviteHeader 2 1 2 7) 0).bind fun e1 =>
        (e1.SendResponse {} 0 100 1 2 7 9).bind fun e2 =>
          e2.SendResponse {} 0 200 1 2 7 9).map fun r =>
        (r.dialogState (7, 1, 2), r.transactionState (7, 1, 2)))
      = some (some .PROCEEDING, some .PROCEEDING) ∧
    (((sipEndpoint.Receive (inviteHeader 2 1 2 7) 0).bind fun e1 =>
        e1.SendResponse {} 0 200 1 2 7 9).map fun r =>
        (r.dialogState (7, 1, 2), r.transactionState (7, 1, 2)))
      = some (some .CONFIRMED, some .COMPLETED) ∧
    (((sipEndpoint.SendInvite {} 0 2 1 2 7 9).bind fun e1 =>
        (e1.Receive (responseHeader 100 1 2 7) 0).bind fun e2 =>
          e2.Receive (responseHeader 200 1 2 7) 0).map fun r =>
        (r.dialogState (7, 1, 2), r.transactionState (7, 1, 2)))
      = some (some .CONFIRMED, some .TERMINATED) := by
  refine ⟨?_, by decide, by decide, by decide⟩
  intro e d t p addr sipFrom sipTo callId cb
  simp [SendResponse, withDialog, withTransaction, dialogState, transactionState,
    invokeSend, traceTx]

/-- C25: an INVITE for a call with callbacks whose dialog exists only fires the
receive trace: the receive callback is not invoked and no dialog or transaction
changes. An INVITE whose dialog does not exist is delivered once to the receive
callback, with state TRYING, and creates the dialog; receiving it again, from any
address, only fires the receive trace, so the callback has been invoked once. -/
theorem C25_repeated_invite (e : SipElement) (h : SipHeader) (a a2 : Nat)
    (hreq : h.messageType = .SIP_REQUEST) (hm : h.method = .INVITE)
    (hev : e.eventCallbacks h.callId = true) (hrc : e.receiveCallbacks h.callId = true) :
    (e.DialogExists (GetDialogId h.callId h.sipFrom h.sipTo) = true →
      e.Receive h a = some { e with rxTrace := e.rxTrace ++ [h] }) ∧
    (e.DialogExists (GetDialogId h.callId h.sipFrom h.sipTo) = false →
      ∃ e1, e.Receive h a = some e1 ∧
        e1.receiveCbCalls = e.receiveCbCalls ++ [(h, .TRYING)] ∧
        e1.DialogExists (GetDialogId h.callId h.sipFrom h.sipTo) = true ∧
        e1.Receive h a2 = some { e1 with rxTrace := e1.rxTrace ++ [h] }) := by
  have hex : ∀ (x : SipElement) (b : Nat), x.eventCallbacks h.callId = true →
      x.receiveCallbacks h.callId = true →
      x.DialogExists (GetDialogId h.callId h.sipFrom h.sipTo) = true →
      x.Receive h b = some { x with rxTrace := x.rxTrace ++ [h] } := by
    intro x b h1 h2 h3
    simp only [DialogExists, Option.isSome_iff_exists] at h3
    obtain ⟨d, hd⟩ := h3
    simp [Receive, hreq, hm, h1, h2, hd]
  refine ⟨hex e a hev hrc, ?_⟩
  intro hno
  have hnone : e.dialogs (GetDialogId h.callId h.sipFrom h.sipTo) = none := by
    simpa [DialogExists] using hno
  have h1 : ∃ e1, e.Receive h a = some e1 ∧
      e1.receiveCbCalls = e.receiveCbCalls ++ [(h, .TRYING)] ∧
      e1.DialogExists (GetDialogId h.callId h.sipFrom h.sipTo) = true ∧
      e1.eventCallbacks = e.eventCallbacks ∧ e1.receiveCallbacks = e.receiveCallbacks := by
    cases htx : e.transactions (GetTransactionId h.callId h.sipFrom h.sipTo) <;>
      simp [Receive, hreq, hm, hev, hrc, hnone, htx, CreateDialog, SetDialogState,
        CreateTransaction, SetTransactionState, updateTransaction, invokeReceive, DialogExists]
  obtain ⟨e1, he1, hcalls, hdlg, hev1, hrc1⟩ := h1
  exact ⟨e1, he1, hcalls, hdlg, hex e1 a2 (by rw [hev1]; exact hev) (by rw [hrc1]; exact hrc) hdlg⟩

/-- Witness of C25: the INVITE of call 7 from 1 to 2 at an element that has the
callbacks of call 7 and no dialog. -/
theorem C25_repeated_invite_witness :
    (inviteHeader 2 1 2 7).messageType = .SIP_REQUEST ∧
    (inviteHeader 2 1 2 7).method = .INVITE ∧
    sipEndpoint.eventCallbacks (inviteHeader 2 1 2 7).callId = true ∧
    sipEndpoint.receiveCallbacks (inviteHeader 2 1 2 7).callId = true ∧
    sipEndpoint.DialogExists (GetDialogId 7 1 2) = false ∧
    ∃ e1, sipEndpoint.Receive (inviteHeader 2 1 2 7) 0 = some e1 ∧
      e1.receiveCbCalls = [(inviteHeader 2 1 2 7, .TRYING)] ∧
      e1.DialogExists (GetDialogId 7 1 2) = true ∧
      e1.Receive (inviteHeader 2 1 2 7) 0 = some { e1 with rxTrace := e1.rxTrace ++ [inviteHeader 2 1 2 7] } :=
  ⟨by decide, by decide, by decide, by decide, by decide,
   (C25_repeated_invite sipEndpoint (inviteHeader 2 1 2 7) 0 0 (by decide) (by decide)
     (by decide) (by decide)).2 (by decide)⟩

/-- One expiry of timer A while the element waits for a response, before the sixth. -/
theorem nextTimerEvent_timerA (e : SipElement) (id : Nat × Nat × Nat) (start : Nat)
    (x : SipSend) (sent0 : List SipSend)
    (events0 : List (Nat × SipEvent × TransactionState)) (n : Nat)
    (ht1 : 0 < e.t1) (hn : n < 6) (h : e.awaitingResponse id start x sent0 events0 n) :
    ∃ e1, e.nextTimerEvent id = some e1 ∧ e1.t1 = e.t1 ∧
      e1.awaitingResponse id start x sent0 events0 (n + 1) := by
  obtain ⟨hnow, hcb, hdl, hsent, hev, t, htx, hst, hcbk, hpk, had, hhd, hA, hB⟩ := h
  have hlt : start + (2 ^ (n + 1) - 1) * e.t1 < start + 64 * e.t1 := by
    apply Nat.add_lt_add_left
    apply Nat.mul_lt_mul_of_pos_right _ ht1
    interval_cases n <;> norm_num
  simp only [nextTimerEvent, htx, hA, hB, hlt, updateTransaction, HandleTimerA,
    ScheduleTimerA, invokeEvent, invokeSend, Option.bind_eq_bind, Option.some_bind,
    if_true, hcb, Function.update_same, hst]
  rw [if_neg (by decide), if_neg (by simp)]
  have hb : 2 ^ n * 2 % 2 ^ 32 = 2 ^ (n + 1) := by interval_cases n <;> norm_num
  have hsum : start + (2 ^ (n + 1) - 1) * e.t1 + 2 ^ (n + 1) * e.t1
      = start + (2 ^ (n + 1 + 1) - 1) * e.t1 := by
    interval_cases n <;> norm_num <;> omega
  have hx : SipSend.mk t.sendCallback t.packet t.address t.sipHeader = x := by
    rw [hcbk, hpk, had, hhd]
  refine ⟨_, rfl, rfl, ?_⟩
  refine ⟨rfl, hcb, hdl, ?_, ?_, _, Function.update_same _ _ _, rfl, hcbk, hpk, had, hhd, ?_, rfl⟩
  · show e.sent ++ [_] = _
    rw [hx, hsent, List.replicate_succ', List.append_assoc]
  · show e.eventCbCalls ++ [_] = _
    rw [hev, List.replicate_succ', List.append_assoc]
  · show some (_, _) = some (_, _)
    rw [hb, hsum]

/-- The expiries of timer A up to the sixth while the element waits for a response. -/
theorem timerEvents_timerA (id : Nat × Nat × Nat) (start : Nat)
    (x : SipSend) (sent0 : List SipSend)
    (events0 : List (Nat × SipEvent × TransactionState)) :
    ∀ (k n : Nat) (e : SipElement), n + k ≤ 6 → 0 < e.t1 →
      e.awaitingResponse id start x sent0 events0 n →
      ∃ e1, timerEvents id k e = some e1 ∧ e1.t1 = e.t1 ∧
        e1.awaitingResponse id start x sent0 events0 (n + k) := by
  intro k
  induction k with
  | zero =>
    intro n e _ _ h
    exact ⟨e, rfl, rfl, h⟩
  | succ k ih =>
    intro n e hle ht1 h
    obtain ⟨e1, he1, ht, h1⟩ :=
      nextTimerEvent_timerA e id start x sent0 events0 n ht1 (by omega) h
    obtain ⟨e2, he2, ht2, h2⟩ := ih (n + 1) e1 (by omega) (by rw [ht]; exact ht1) h1
    refine ⟨e2, ?_, by rw [ht2, ht], ?_⟩
    · simp only [timerEvents, he1, Option.some_bind, he2]
    · have : n + (k + 1) = n + 1 + k := by omega
      rw [this]
      exact h2

/-- The next expiries are those so far followed by one more. -/
theorem timerEvents_succ (id : Nat × Nat × Nat) :
    ∀ (n : Nat) (e : SipElement),
      timerEvents id (n + 1) e = (timerEvents id n e).bind fun e1 => e1.nextTimerEvent id := by
  intro n
  induction n with
  | zero =>
    intro e
    simp only [timerEvents, Option.some_bind]
    cases e.nextTimerEvent id <;> rfl
  | succ n ih =>
    intro e
    show (e.nextTimerEvent id).bind (timerEvents id (n + 1)) = _
    cases h : e.nextTimerEvent id with
    | none => simp only [timerEvents, h, Option.none_bind]
    | some e1 =>
      simp only [Option.some_bind]
      rw [ih e1]
      simp only [timerEvents, h, Option.some_bind]

/-- The expiry after the sixth expiry of timer A is that of timer B, after which
no timer of the transaction is scheduled. -/
theorem nextTimerEvent_timerB (e : SipElement) (id : Nat × Nat × Nat) (start : Nat)
    (x : SipSend) (sent0 : List SipSend)
    (events0 : List (Nat × SipEvent × TransactionState))
    (h : e.awaitingResponse id start x sent0 events0 6) :
    ∃ e1, e.nextTimerEvent id = some e1 ∧ e1.now = start + 64 * e.t1 ∧
      e1.sent = e.sent ∧
      e1.eventCbCalls = e.eventCbCalls ++ [(id.1, .TIMER_B_EXPIRED, .CALLING)] ∧
      (∃ t, e1.transactions id = some t ∧ t.state = .FAILED ∧ t.timerA = none ∧
        t.timerB = none) ∧
      e1.dialogState (GetDialogId id.1 id.2.1 id.2.2) = some .TERMINATED ∧
      e1.nextTimerEvent id = none := by
  obtain ⟨hnow, hcb, hdl, hsent, hev, t, htx, hst, hcbk, hpk, had, hhd, hA, hB⟩ := h
  have hlt2 : ¬ 127 * e.t1 < 64 * e.t1 := by omega
  obtain ⟨d, hd⟩ := Option.isSome_iff_exists.mp hdl
  simp [nextTimerEvent, htx, hA, hB, hlt2, updateTransaction, HandleTimerB, CancelTimerA,
    SetTransactionState, SetDialogState, invokeEvent, hcb, hst, hd, dialogState]

/-- After `SendInvite` on an element without the dialog and the transaction, the
element waits for a response, no timer having expired yet. -/
theorem sendInvite_awaitingResponse (e : SipElement) (p : SipPacket)
    (addr requestUri sipFrom sipTo callId cb : Nat)
    (hcb : e.eventCallbacks callId = true)
    (hd : e.dialogs (GetDialogId callId sipFrom sipTo) = none)
    (htr : e.transactions (GetTransactionId callId sipFrom sipTo) = none) :
    ∃ e1, e.SendInvite p addr requestUri sipFrom sipTo callId cb = some e1 ∧
      e1.t1 = e.t1 ∧
      e1.sent = e.sent ++ [sentInvite p addr requestUri sipFrom sipTo callId cb] ∧
      e1.awaitingResponse (GetTransactionId callId sipFrom sipTo) e.now
        (sentInvite p addr requestUri sipFrom sipTo callId cb)
        (e.sent ++ [sentInvite p addr requestUri sipFrom sipTo callId cb])
        e.eventCbCalls 0 := by
  have htr2 : e.transactions (callId, sipFrom, sipTo) = none := htr
  simp [SendInvite, CreateDialog, hd, SetDialogState, CreateTransaction, htr2,
    SetTransactionState, updateTransaction, CacheTransactionPacket, invokeSend, traceTx,
    ScheduleTimerA, ScheduleTimerB, awaitingResponse, sentInvite, inviteHeader,
    GetTransactionId, hcb]

/-- C26: after `SendInvite` at time `now` on an element with a positive T1, for a call
with an event callback and no dialog or transaction yet, and with no response:
for every n up to 6 the n-th expiry is one of timer A, at `now + (2 ^ n - 1) * T1`;
by then the cached INVITE has been resent n times, unchanged and to the cached
address, and timer A is scheduled again `2 ^ n * T1` later while timer B stays
scheduled at `now + 64 * T1`. The seventh expiry is that of timer B, at
`now + 64 * T1`, after exactly six retransmissions; it fails the transaction,
terminates the dialog and leaves no timer scheduled, so there is no eighth. -/
theorem C26_timerA_backoff (e : SipElement) (p : SipPacket)
    (addr requestUri sipFrom sipTo callId cb : Nat)
    (ht1 : 0 < e.t1)
    (hcb : e.eventCallbacks callId = true)
    (hd : e.dialogs (GetDialogId callId sipFrom sipTo) = none)
    (htr : e.transactions (GetTransactionId callId sipFrom sipTo) = none) :
    ∃ e1, e.SendInvite p addr requestUri sipFrom sipTo callId cb = some e1 ∧
      e1.sent = e.sent ++ [sentInvite p addr requestUri sipFrom sipTo callId cb] ∧
      (∀ n, n ≤ 6 → ∃ en t,
        timerEvents (GetTransactionId callId sipFrom sipTo) n e1 = some en ∧
        en.now = e.now + (2 ^ n - 1) * e.t1 ∧
        en.sent = e1.sent ++
          List.replicate n (sentInvite p addr requestUri sipFrom sipTo callId cb) ∧
        en.eventCbCalls = e.eventCbCalls ++
          List.replicate n (callId, .TIMER_A_EXPIRED, .CALLING) ∧
        en.transactions (GetTransactionId callId sipFrom sipTo) = some t ∧
        t.state = .CALLING ∧
        t.timerA = some (en.now + 2 ^ n * e.t1, 2 ^ n) ∧
        t.timerB = some (e.now + 64 * e.t1)) ∧
      (∃ e7 t,
        timerEvents (GetTransactionId callId sipFrom sipTo) 7 e1 = some e7 ∧
        e7.now = e.now + 64 * e.t1 ∧
        e7.sent = e1.sent ++
          List.replicate 6 (sentInvite p addr requestUri sipFrom sipTo callId cb) ∧
        e7.eventCbCalls = e.eventCbCalls ++
          List.replicate 6 (callId, .TIMER_A_EXPIRED, .CALLING) ++
          [(callId, .TIMER_B_EXPIRED, .CALLING)] ∧
        e7.transactions (GetTransactionId callId sipFrom sipTo) = some t ∧
        t.state = .FAILED ∧ t.timerA = none ∧ t.timerB = none ∧
        e7.dialogState (GetDialogId callId sipFrom sipTo) = some .TERMINATED) ∧
      timerEvents (GetTransactionId callId sipFrom sipTo) 8 e1 = none := by
  obtain ⟨e1, he1, ht, hsent, haw⟩ :=
    sendInvite_awaitingResponse e p addr requestUri sipFrom sipTo callId cb hcb hd htr
  have hrun : ∀ n, n ≤ 6 → ∃ en,
      timerEvents (GetTransactionId callId sipFrom sipTo) n e1 = some en ∧ en.t1 = e.t1 ∧
      en.awaitingResponse (GetTransactionId callId sipFrom sipTo) e.now
        (sentInvite p addr requestUri sipFrom sipTo callId cb) e1.sent e.eventCbCalls n := by
    intro n hn
    obtain ⟨en, hen, htn, hawn⟩ := timerEvents_timerA (GetTransactionId callId sipFrom sipTo)
      e.now (sentInvite p addr requestUri sipFrom sipTo callId cb)
      (e.sent ++ [sentInvite p addr requestUri sipFrom sipTo callId cb]) e.eventCbCalls
      n 0 e1 (by omega) (by rw [ht]; exact ht1) haw
    rw [Nat.zero_add] at hawn
    rw [← hsent] at hawn
    exact ⟨en, hen, by rw [htn, ht], hawn⟩
  refine ⟨e1, he1, hsent, ?_, ?_, ?_⟩
  · intro n hn
    obtain ⟨en, hen, htn, hnow, _, _, hs, hev, t, htx, hst, _, _, _, _, hA, hB⟩ := hrun n hn
    rw [htn] at hnow hA hB
    refine ⟨en, t, hen, hnow, hs, hev, htx, hst, ?_, hB⟩
    rw [hA, hnow]
    have h2 : 2 ^ (n + 1) - 1 = (2 ^ n - 1) + 2 ^ n := by
      have := Nat.two_pow_pos n
      rw [pow_succ]
      omega
    rw [h2, Nat.add_mul, Nat.add_assoc]
  · obtain ⟨e6, he6, ht6, haw6⟩ := hrun 6 (by omega)
    obtain ⟨e7, he7, hnow7, hsent7, hev7, ⟨t, htx, hst, hA, hB⟩, hdlg, _⟩ :=
      nextTimerEvent_timerB e6 _ _ _ _ _ haw6
    obtain ⟨_, _, _, hs6, hev6, _⟩ := haw6
    refine ⟨e7, t, ?_, ?_, ?_, ?_, htx, hst, hA, hB, hdlg⟩
    · rw [timerEvents_succ, he6]
      exact he7
    · rw [hnow7, ht6]
    · rw [hsent7, hs6]
    · rw [hev7, hev6]
      rfl
  · obtain ⟨e6, he6, ht6, haw6⟩ := hrun 6 (by omega)
    obtain ⟨e7, he7, _, _, _, _, _, hend⟩ := nextTimerEvent_timerB e6 _ _ _ _ _ haw6
    rw [timerEvents_succ, timerEvents_succ, he6]
    simp only [Option.some_bind, he7, hend]

/-- Witness of C26: an INVITE of call 7 from 1 to 2 sent on `sipEndpoint`, whose T1
is 500: the seven expiries end at time 32000 after six retransmissions. -/
theorem C26_timerA_backoff_witness :
    0 < sipEndpoint.t1 ∧ sipEndpoint.eventCallbacks 7 = true ∧
    sipEndpoint.dialogs (GetDialogId 7 1 2) = none ∧
    sipEndpoint.transactions (GetTransactionId 7 1 2) = none ∧
    ∃ e1 e7, sipEndpoint.SendInvite {} 0 2 1 2 7 9 = some e1 ∧
      timerEvents (GetTransactionId 7 1 2) 7 e1 = some e7 ∧
      e7.now = 32000 ∧
      e7.sent = List.replicate 7 (sentInvite {} 0 2 1 2 7 9) ∧
      timerEvents (GetTransactionId 7 1 2) 8 e1 = none := by
  refine ⟨by decide, by decide, rfl, rfl, ?_⟩
  obtain ⟨e1, he1, hs1, _, ⟨e7, t, he7, hnow, hs7, _⟩, h8⟩ :=
    C26_timerA_backoff sipEndpoint {} 0 2 1 2 7 9 (by decide) (by decide) rfl rfl
  refine ⟨e1, e7, he1, he7, ?_, ?_, h8⟩
  · rw [hnow]
    rfl
  · rw [hs7, hs1]
    rfl

end Sip

end Mcptt
